import Mathlib

/-!
# Verification of the TeamSpeak 3 SDK header contract

The repository consists of two C headers: the client SDK header
(`include/teamspeak/clientlib.h`) and the server SDK header.  They declare
the exported functions (`EXPORTDLL`-marked prototypes) and the callback
function-pointer tables (`ClientUIFunctions`, `ServerLibFunctions`) of a
precompiled native library whose implementation is not part of the
repository.

This development embeds the declared API surface literally: every exported
prototype and every callback slot is transcribed as a `CFun` value giving
its name, return type and parameter list.  Properties of the declarations
(return types, parameter names and types) are settled against this data.
Behavioural properties of the library (memory contract, speed-limit
enforcement, batched property flushes, lifecycle, permission gating,
callback ordering) concern the missing implementation; those are settled
against small state models written from the specification and the header
documentation comments, each marked `Modelled from the spec:`.
-/

namespace TS3

/-- C types as they appear in the two SDK headers: primitive types, the SDK
typedefs `uint64` and `anyID`, `enum`/`struct` references by tag name, other
named typedefs (`TS3_VECTOR`), `const` qualification and pointers. -/
inductive CType where
  | void
  | char
  | uchar
  | int
  | uint
  | short
  | ushort
  | uint64
  | anyID
  | float
  | double
  | sizeT
  | enum (n : String)
  | struct (n : String)
  | named (n : String)
  | constOf (t : CType)
  | ptr (t : CType)
  deriving DecidableEq

/-- A formal parameter of a C prototype: its name and its type. -/
structure CParam where
  name : String
  type : CType
  deriving DecidableEq

/-- A C function prototype (or callback-table slot): name, return type and
parameter list, transcribed from the header. -/
structure CFun where
  name : String
  ret : CType
  params : List CParam
  deriving DecidableEq

def clientExportsChunk0 : List CFun := [
  CFun.mk "ts3client_freeMemory" CType.uint [CParam.mk "pointer" (CType.ptr CType.void)],
  CFun.mk "ts3client_initClientLib" CType.uint [CParam.mk "functionPointers" (CType.ptr (CType.constOf (CType.struct "ClientUIFunctions"))), CParam.mk "functionRarePointers" (CType.ptr (CType.constOf (CType.struct "ClientUIFunctionsRare"))), CParam.mk "usedLogTypes" CType.int, CParam.mk "logFileFolder" (CType.ptr (CType.constOf CType.char)), CParam.mk "resourcesFolder" (CType.ptr (CType.constOf CType.char))],
  CFun.mk "ts3client_destroyClientLib" CType.uint [],
  CFun.mk "ts3client_getClientLibVersion" CType.uint [CParam.mk "result" (CType.ptr (CType.ptr CType.char))],
  CFun.mk "ts3client_getClientLibVersionNumber" CType.uint [CParam.mk "result" (CType.ptr CType.uint64)],
  CFun.mk "ts3client_spawnNewServerConnectionHandler" CType.uint [CParam.mk "port" CType.int, CParam.mk "result" (CType.ptr CType.uint64)],
  CFun.mk "ts3client_destroyServerConnectionHandler" CType.uint [CParam.mk "serverConnectionHandlerID" CType.uint64],
  CFun.mk "ts3client_createIdentity" CType.uint [CParam.mk "result" (CType.ptr (CType.ptr CType.char))],
  CFun.mk "ts3client_identityStringToUniqueIdentifier" CType.uint [CParam.mk "identityString" (CType.ptr (CType.constOf CType.char)), CParam.mk "result" (CType.ptr (CType.ptr CType.char))],
  CFun.mk "ts3client_getPlaybackDeviceList" CType.uint [CParam.mk "modeID" (CType.ptr (CType.constOf CType.char)), CParam.mk "result" (CType.ptr (CType.ptr (CType.ptr (CType.ptr CType.char))))],
  CFun.mk "ts3client_getCaptureDeviceList" CType.uint [CParam.mk "modeID" (CType.ptr (CType.constOf CType.char)), CParam.mk "result" (CType.ptr (CType.ptr (CType.ptr (CType.ptr CType.char))))],
  CFun.mk "ts3client_getPlaybackModeList" CType.uint [CParam.mk "result" (CType.ptr (CType.ptr (CType.ptr CType.char)))],
  CFun.mk "ts3client_getCaptureModeList" CType.uint [CParam.mk "result" (CType.ptr (CType.ptr (CType.ptr CType.char)))],
  CFun.mk "ts3client_getDefaultPlaybackDevice" CType.uint [CParam.mk "modeID" (CType.ptr (CType.constOf CType.char)), CParam.mk "result" (CType.ptr (CType.ptr (CType.ptr CType.char)))],
  CFun.mk "ts3client_getDefaultCaptureDevice" CType.uint [CParam.mk "modeID" (CType.ptr (CType.constOf CType.char)), CParam.mk "result" (CType.ptr (CType.ptr (CType.ptr CType.char)))],
  CFun.mk "ts3client_getDefaultPlayBackMode" CType.uint [CParam.mk "result" (CType.ptr (CType.ptr CType.char))],
  CFun.mk "ts3client_getDefaultCaptureMode" CType.uint [CParam.mk "result" (CType.ptr (CType.ptr CType.char))],
  CFun.mk "ts3client_openPlaybackDevice" CType.uint [CParam.mk "serverConnectionHandlerID" CType.uint64, CParam.mk "modeID" (CType.ptr (CType.constOf CType.char)), CParam.mk "playbackDevice" (CType.ptr (CType.constOf CType.char))],
  CFun.mk "ts3client_openCaptureDevice" CType.uint [CParam.mk "serverConnectionHandlerID" CType.uint64, CParam.mk "modeID" (CType.ptr (CType.constOf CType.char)), CParam.mk "captureDevice" (CType.ptr (CType.constOf CType.char))],
  CFun.mk "ts3client_getCurrentPlaybackDeviceName" CType.uint [CParam.mk "serverConnectionHandlerID" CType.uint64, CParam.mk "result" (CType.ptr (CType.ptr CType.char)), CParam.mk "isDefault" (CType.ptr CType.int)],
  CFun.mk "ts3client_getCurrentPlayBackMode" CType.uint [CParam.mk "serverConnectionHandlerID" CType.uint64, CParam.mk "result" (CType.ptr (CType.ptr CType.char))],
  CFun.mk "ts3client_getCurrentCaptureDeviceName" CType.uint [CParam.mk "serverConnectionHandlerID" CType.uint64, CParam.mk "result" (CType.ptr (CType.ptr CType.char)), CParam.mk "isDefault" (CType.ptr CType.int)],
  CFun.mk "ts3client_getCurrentCaptureMode" CType.uint [CParam.mk "serverConnectionHandlerID" CType.uint64, CParam.mk "result" (CType.ptr (CType.ptr CType.char))],
  CFun.mk "ts3client_initiateGracefulPlaybackShutdown" CType.uint [CParam.mk "serverConnectionHandlerID" CType.uint64],
  CFun.mk "ts3client_closePlaybackDevice" CType.uint [CParam.mk "serverConnectionHandlerID" CType.uint64]]

def clientExportsChunk1 : List CFun := [
  CFun.mk "ts3client_closeCaptureDevice" CType.uint [CParam.mk "serverConnectionHandlerID" CType.uint64],
  CFun.mk "ts3client_activateCaptureDevice" CType.uint [CParam.mk "serverConnectionHandlerID" CType.uint64],
  CFun.mk "ts3client_playWaveFile" CType.uint [CParam.mk "serverConnectionHandlerID" CType.uint64, CParam.mk "path" (CType.ptr (CType.constOf CType.char))],
  CFun.mk "ts3client_playWaveFileHandle" CType.uint [CParam.mk "serverConnectionHandlerID" CType.uint64, CParam.mk "path" (CType.ptr (CType.constOf CType.char)), CParam.mk "loop" CType.int, CParam.mk "waveHandle" (CType.ptr CType.uint64)],
  CFun.mk "ts3client_pauseWaveFileHandle" CType.uint [CParam.mk "serverConnectionHandlerID" CType.uint64, CParam.mk "waveHandle" CType.uint64, CParam.mk "pause" CType.int],
  CFun.mk "ts3client_closeWaveFileHandle" CType.uint [CParam.mk "serverConnectionHandlerID" CType.uint64, CParam.mk "waveHandle" CType.uint64],
  CFun.mk "ts3client_registerCustomDevice" CType.uint [CParam.mk "deviceID" (CType.ptr (CType.constOf CType.char)), CParam.mk "deviceDisplayName" (CType.ptr (CType.constOf CType.char)), CParam.mk "capFrequency" CType.int, CParam.mk "capChannels" CType.int, CParam.mk "playFrequency" CType.int, CParam.mk "playChannels" CType.int],
  CFun.mk "ts3client_unregisterCustomDevice" CType.uint [CParam.mk "deviceID" (CType.ptr (CType.constOf CType.char))],
  CFun.mk "ts3client_processCustomCaptureData" CType.uint [CParam.mk "deviceName" (CType.ptr (CType.constOf CType.char)), CParam.mk "buffer" (CType.ptr (CType.constOf CType.short)), CParam.mk "samples" CType.int],
  CFun.mk "ts3client_acquireCustomPlaybackData" CType.uint [CParam.mk "deviceName" (CType.ptr (CType.constOf CType.char)), CParam.mk "buffer" (CType.ptr CType.short), CParam.mk "samples" CType.int],
  CFun.mk "ts3client_setLocalTestMode" CType.uint [CParam.mk "serverConnectionHandlerID" CType.uint64, CParam.mk "status" CType.int],
  CFun.mk "ts3client_startVoiceRecording" CType.uint [CParam.mk "serverConnectionHandlerID" CType.uint64],
  CFun.mk "ts3client_stopVoiceRecording" CType.uint [CParam.mk "serverConnectionHandlerID" CType.uint64],
  CFun.mk "ts3client_allowWhispersFrom" CType.uint [CParam.mk "serverConnectionHandlerID" CType.uint64, CParam.mk "clID" CType.anyID],
  CFun.mk "ts3client_removeFromAllowedWhispersFrom" CType.uint [CParam.mk "serverConnectionHandlerID" CType.uint64, CParam.mk "clID" CType.anyID],
  CFun.mk "ts3client_getWhisperReceiveWhitelist" CType.uint [CParam.mk "serverConnectionHandlerID" CType.uint64, CParam.mk "result" (CType.ptr (CType.ptr CType.anyID))],
  CFun.mk "ts3client_isWhisperReceiveWhitelisted" CType.uint [CParam.mk "serverConnectionHandlerID" CType.uint64, CParam.mk "clientID" CType.anyID, CParam.mk "result" (CType.ptr CType.int)],
  CFun.mk "ts3client_setWhisperReceiveWhitelist" CType.uint [CParam.mk "serverConnectionHandlerID" CType.uint64, CParam.mk "clientIDs" (CType.ptr CType.anyID)],
  CFun.mk "ts3client_systemset3DListenerAttributes" CType.uint [CParam.mk "serverConnectionHandlerID" CType.uint64, CParam.mk "position" (CType.ptr (CType.constOf (CType.named "TS3_VECTOR"))), CParam.mk "forward" (CType.ptr (CType.constOf (CType.named "TS3_VECTOR"))), CParam.mk "up" (CType.ptr (CType.constOf (CType.named "TS3_VECTOR")))],
  CFun.mk "ts3client_set3DWaveAttributes" CType.uint [CParam.mk "serverConnectionHandlerID" CType.uint64, CParam.mk "waveHandle" CType.uint64, CParam.mk "position" (CType.ptr (CType.constOf (CType.named "TS3_VECTOR")))],
  CFun.mk "ts3client_systemset3DSettings" CType.uint [CParam.mk "serverConnectionHandlerID" CType.uint64, CParam.mk "distanceFactor" CType.float, CParam.mk "rolloffScale" CType.float],
  CFun.mk "ts3client_channelset3DAttributes" CType.uint [CParam.mk "serverConnectionHandlerID" CType.uint64, CParam.mk "clientID" CType.anyID, CParam.mk "position" (CType.ptr (CType.constOf (CType.named "TS3_VECTOR")))],
  CFun.mk "ts3client_getPreProcessorInfoValueFloat" CType.uint [CParam.mk "serverConnectionHandlerID" CType.uint64, CParam.mk "ident" (CType.ptr (CType.constOf CType.char)), CParam.mk "result" (CType.ptr CType.float)],
  CFun.mk "ts3client_getPreProcessorConfigValue" CType.uint [CParam.mk "serverConnectionHandlerID" CType.uint64, CParam.mk "ident" (CType.ptr (CType.constOf CType.char)), CParam.mk "result" (CType.ptr (CType.ptr CType.char))],
  CFun.mk "ts3client_setPreProcessorConfigValue" CType.uint [CParam.mk "serverConnectionHandlerID" CType.uint64, CParam.mk "ident" (CType.ptr (CType.constOf CType.char)), CParam.mk "value" (CType.ptr (CType.constOf CType.char))]]

def clientExportsChunk2 : List CFun := [
  CFun.mk "ts3client_setKeyPressedDuringChunk" CType.uint [],
  CFun.mk "ts3client_getGlobalConfigValueAsInt" CType.uint [CParam.mk "ident" (CType.ptr (CType.constOf CType.char)), CParam.mk "result" (CType.ptr CType.int)],
  CFun.mk "ts3client_setGlobalConfigValue" CType.uint [CParam.mk "ident" (CType.ptr (CType.constOf CType.char)), CParam.mk "value" (CType.ptr (CType.constOf CType.char))],
  CFun.mk "ts3client_getEncodeConfigValue" CType.uint [CParam.mk "serverConnectionHandlerID" CType.uint64, CParam.mk "ident" (CType.ptr (CType.constOf CType.char)), CParam.mk "result" (CType.ptr (CType.ptr CType.char))],
  CFun.mk "ts3client_getPlaybackConfigValueAsFloat" CType.uint [CParam.mk "serverConnectionHandlerID" CType.uint64, CParam.mk "ident" (CType.ptr (CType.constOf CType.char)), CParam.mk "result" (CType.ptr CType.float)],
  CFun.mk "ts3client_setPlaybackConfigValue" CType.uint [CParam.mk "serverConnectionHandlerID" CType.uint64, CParam.mk "ident" (CType.ptr (CType.constOf CType.char)), CParam.mk "value" (CType.ptr (CType.constOf CType.char))],
  CFun.mk "ts3client_setClientVolumeModifier" CType.uint [CParam.mk "serverConnectionHandlerID" CType.uint64, CParam.mk "clientID" CType.anyID, CParam.mk "value" CType.float],
  CFun.mk "ts3client_logMessage" CType.uint [CParam.mk "logMessage" (CType.ptr (CType.constOf CType.char)), CParam.mk "severity" (CType.enum "LogLevel"), CParam.mk "channel" (CType.ptr (CType.constOf CType.char)), CParam.mk "logID" CType.uint64],
  CFun.mk "ts3client_setLogVerbosity" CType.uint [CParam.mk "logVerbosity" (CType.enum "LogLevel")],
  CFun.mk "ts3client_getErrorMessage" CType.uint [CParam.mk "errorCode" CType.uint, CParam.mk "error" (CType.ptr (CType.ptr CType.char))],
  CFun.mk "ts3client_startConnection" CType.uint [CParam.mk "serverConnectionHandlerID" CType.uint64, CParam.mk "identity" (CType.ptr (CType.constOf CType.char)), CParam.mk "ip" (CType.ptr (CType.constOf CType.char)), CParam.mk "port" CType.uint, CParam.mk "nickname" (CType.ptr (CType.constOf CType.char)), CParam.mk "defaultChannelArray" (CType.ptr (CType.ptr (CType.constOf CType.char))), CParam.mk "defaultChannelPassword" (CType.ptr (CType.constOf CType.char)), CParam.mk "serverPassword" (CType.ptr (CType.constOf CType.char))],
  CFun.mk "ts3client_startConnectionWithChannelID" CType.uint [CParam.mk "serverConnectionHandlerID" CType.uint64, CParam.mk "identity" (CType.ptr (CType.constOf CType.char)), CParam.mk "ip" (CType.ptr (CType.constOf CType.char)), CParam.mk "port" CType.uint, CParam.mk "nickname" (CType.ptr (CType.constOf CType.char)), CParam.mk "defaultChannelId" CType.uint64, CParam.mk "defaultChannelPassword" (CType.ptr (CType.constOf CType.char)), CParam.mk "serverPassword" (CType.ptr (CType.constOf CType.char))],
  CFun.mk "ts3client_stopConnection" CType.uint [CParam.mk "serverConnectionHandlerID" CType.uint64, CParam.mk "quitMessage" (CType.ptr (CType.constOf CType.char))],
  CFun.mk "ts3client_requestClientMove" CType.uint [CParam.mk "serverConnectionHandlerID" CType.uint64, CParam.mk "clientIDArray" (CType.ptr (CType.constOf CType.anyID)), CParam.mk "newChannelID" CType.uint64, CParam.mk "password" (CType.ptr (CType.constOf CType.char)), CParam.mk "returnCode" (CType.ptr (CType.constOf CType.char))],
  CFun.mk "ts3client_requestClientVariables" CType.uint [CParam.mk "serverConnectionHandlerID" CType.uint64, CParam.mk "clientID" CType.anyID, CParam.mk "returnCode" (CType.ptr (CType.constOf CType.char))],
  CFun.mk "ts3client_requestClientKickFromChannel" CType.uint [CParam.mk "serverConnectionHandlerID" CType.uint64, CParam.mk "clientIDArray" (CType.ptr (CType.constOf CType.anyID)), CParam.mk "kickReason" (CType.ptr (CType.constOf CType.char)), CParam.mk "returnCode" (CType.ptr (CType.constOf CType.char))],
  CFun.mk "ts3client_requestClientKickFromServer" CType.uint [CParam.mk "serverConnectionHandlerID" CType.uint64, CParam.mk "clientIDArray" (CType.ptr (CType.constOf CType.anyID)), CParam.mk "kickReason" (CType.ptr (CType.constOf CType.char)), CParam.mk "returnCode" (CType.ptr (CType.constOf CType.char))],
  CFun.mk "ts3client_requestChannelDelete" CType.uint [CParam.mk "serverConnectionHandlerID" CType.uint64, CParam.mk "channelID" CType.uint64, CParam.mk "force" CType.int, CParam.mk "returnCode" (CType.ptr (CType.constOf CType.char))],
  CFun.mk "ts3client_requestChannelMove" CType.uint [CParam.mk "serverConnectionHandlerID" CType.uint64, CParam.mk "channelID" CType.uint64, CParam.mk "newChannelParentID" CType.uint64, CParam.mk "newChannelOrder" CType.uint64, CParam.mk "returnCode" (CType.ptr (CType.constOf CType.char))],
  CFun.mk "ts3client_requestSendPrivateTextMsg" CType.uint [CParam.mk "serverConnectionHandlerID" CType.uint64, CParam.mk "message" (CType.ptr (CType.constOf CType.char)), CParam.mk "targetClientID" CType.anyID, CParam.mk "returnCode" (CType.ptr (CType.constOf CType.char))],
  CFun.mk "ts3client_requestSendChannelTextMsg" CType.uint [CParam.mk "serverConnectionHandlerID" CType.uint64, CParam.mk "message" (CType.ptr (CType.constOf CType.char)), CParam.mk "targetChannelID" CType.uint64, CParam.mk "returnCode" (CType.ptr (CType.constOf CType.char))],
  CFun.mk "ts3client_requestSendServerTextMsg" CType.uint [CParam.mk "serverConnectionHandlerID" CType.uint64, CParam.mk "message" (CType.ptr (CType.constOf CType.char)), CParam.mk "returnCode" (CType.ptr (CType.constOf CType.char))],
  CFun.mk "ts3client_requestChat" CType.uint [CParam.mk "serverConnectionHandlerID" CType.uint64, CParam.mk "type" (CType.ptr (CType.constOf CType.char)), CParam.mk "targetClientID" CType.anyID, CParam.mk "returnCode" (CType.ptr (CType.constOf CType.char))],
  CFun.mk "ts3client_requestConnectionInfo" CType.uint [CParam.mk "serverConnectionHandlerID" CType.uint64, CParam.mk "clientID" CType.anyID, CParam.mk "returnCode" (CType.ptr (CType.constOf CType.char))],
  CFun.mk "ts3client_requestClientSetWhisperList" CType.uint [CParam.mk "serverConnectionHandlerID" CType.uint64, CParam.mk "clientID" CType.anyID, CParam.mk "targetChannelIDArray" (CType.ptr (CType.constOf CType.uint64)), CParam.mk "targetClientIDArray" (CType.ptr (CType.constOf CType.anyID)), CParam.mk "returnCode" (CType.ptr (CType.constOf CType.char))]]

def clientExportsChunk3 : List CFun := [
  CFun.mk "ts3client_requestChannelSubscribe" CType.uint [CParam.mk "serverConnectionHandlerID" CType.uint64, CParam.mk "channelIDArray" (CType.ptr (CType.constOf CType.uint64)), CParam.mk "returnCode" (CType.ptr (CType.constOf CType.char))],
  CFun.mk "ts3client_requestChannelSubscribeAll" CType.uint [CParam.mk "serverConnectionHandlerID" CType.uint64, CParam.mk "returnCode" (CType.ptr (CType.constOf CType.char))],
  CFun.mk "ts3client_requestChannelUnsubscribe" CType.uint [CParam.mk "serverConnectionHandlerID" CType.uint64, CParam.mk "channelIDArray" (CType.ptr (CType.constOf CType.uint64)), CParam.mk "returnCode" (CType.ptr (CType.constOf CType.char))],
  CFun.mk "ts3client_requestChannelUnsubscribeAll" CType.uint [CParam.mk "serverConnectionHandlerID" CType.uint64, CParam.mk "returnCode" (CType.ptr (CType.constOf CType.char))],
  CFun.mk "ts3client_requestChannelDescription" CType.uint [CParam.mk "serverConnectionHandlerID" CType.uint64, CParam.mk "channelID" CType.uint64, CParam.mk "returnCode" (CType.ptr (CType.constOf CType.char))],
  CFun.mk "ts3client_requestMuteClients" CType.uint [CParam.mk "serverConnectionHandlerID" CType.uint64, CParam.mk "clientIDArray" (CType.ptr (CType.constOf CType.anyID)), CParam.mk "returnCode" (CType.ptr (CType.constOf CType.char))],
  CFun.mk "ts3client_requestUnmuteClients" CType.uint [CParam.mk "serverConnectionHandlerID" CType.uint64, CParam.mk "clientIDArray" (CType.ptr (CType.constOf CType.anyID)), CParam.mk "returnCode" (CType.ptr (CType.constOf CType.char))],
  CFun.mk "ts3client_requestClientIDs" CType.uint [CParam.mk "serverConnectionHandlerID" CType.uint64, CParam.mk "clientUniqueIdentifier" (CType.ptr (CType.constOf CType.char)), CParam.mk "returnCode" (CType.ptr (CType.constOf CType.char))],
  CFun.mk "ts3client_requestSlotsFromProvisioningServer" CType.uint [CParam.mk "ip" (CType.ptr (CType.constOf CType.char)), CParam.mk "port" CType.ushort, CParam.mk "serverPassword" (CType.ptr (CType.constOf CType.char)), CParam.mk "slots" CType.ushort, CParam.mk "identity" (CType.ptr (CType.constOf CType.char)), CParam.mk "region" (CType.ptr (CType.constOf CType.char)), CParam.mk "requestHandle" (CType.ptr CType.uint64)],
  CFun.mk "ts3client_cancelRequestSlotsFromProvisioningServer" CType.uint [CParam.mk "requestHandle" CType.uint64],
  CFun.mk "ts3client_startConnectionWithProvisioningKey" CType.uint [CParam.mk "serverConnectionHandlerID" CType.uint64, CParam.mk "identity" (CType.ptr (CType.constOf CType.char)), CParam.mk "nickname" (CType.ptr (CType.constOf CType.char)), CParam.mk "connectionKey" (CType.ptr (CType.constOf CType.char)), CParam.mk "clientMetaData" (CType.ptr (CType.constOf CType.char))],
  CFun.mk "ts3client_getClientID" CType.uint [CParam.mk "serverConnectionHandlerID" CType.uint64, CParam.mk "result" (CType.ptr CType.anyID)],
  CFun.mk "ts3client_getConnectionStatus" CType.uint [CParam.mk "serverConnectionHandlerID" CType.uint64, CParam.mk "result" (CType.ptr CType.int)],
  CFun.mk "ts3client_getConnectionVariableAsUInt64" CType.uint [CParam.mk "serverConnectionHandlerID" CType.uint64, CParam.mk "clientID" CType.anyID, CParam.mk "flag" CType.sizeT, CParam.mk "result" (CType.ptr CType.uint64)],
  CFun.mk "ts3client_getConnectionVariableAsDouble" CType.uint [CParam.mk "serverConnectionHandlerID" CType.uint64, CParam.mk "clientID" CType.anyID, CParam.mk "flag" CType.sizeT, CParam.mk "result" (CType.ptr CType.double)],
  CFun.mk "ts3client_getConnectionVariableAsString" CType.uint [CParam.mk "serverConnectionHandlerID" CType.uint64, CParam.mk "clientID" CType.anyID, CParam.mk "flag" CType.sizeT, CParam.mk "result" (CType.ptr (CType.ptr CType.char))],
  CFun.mk "ts3client_cleanUpConnectionInfo" CType.uint [CParam.mk "serverConnectionHandlerID" CType.uint64, CParam.mk "clientID" CType.anyID],
  CFun.mk "ts3client_requestServerConnectionInfo" CType.uint [CParam.mk "serverConnectionHandlerID" CType.uint64, CParam.mk "returnCode" (CType.ptr (CType.constOf CType.char))],
  CFun.mk "ts3client_getServerConnectionVariableAsUInt64" CType.uint [CParam.mk "serverConnectionHandlerID" CType.uint64, CParam.mk "flag" CType.sizeT, CParam.mk "result" (CType.ptr CType.uint64)],
  CFun.mk "ts3client_getServerConnectionVariableAsFloat" CType.uint [CParam.mk "serverConnectionHandlerID" CType.uint64, CParam.mk "flag" CType.sizeT, CParam.mk "result" (CType.ptr CType.float)],
  CFun.mk "ts3client_getClientSelfVariableAsInt" CType.uint [CParam.mk "serverConnectionHandlerID" CType.uint64, CParam.mk "flag" CType.sizeT, CParam.mk "result" (CType.ptr CType.int)],
  CFun.mk "ts3client_getClientSelfVariableAsString" CType.uint [CParam.mk "serverConnectionHandlerID" CType.uint64, CParam.mk "flag" CType.sizeT, CParam.mk "result" (CType.ptr (CType.ptr CType.char))],
  CFun.mk "ts3client_setClientSelfVariableAsInt" CType.uint [CParam.mk "serverConnectionHandlerID" CType.uint64, CParam.mk "flag" CType.sizeT, CParam.mk "value" CType.int],
  CFun.mk "ts3client_setClientSelfVariableAsString" CType.uint [CParam.mk "serverConnectionHandlerID" CType.uint64, CParam.mk "flag" CType.sizeT, CParam.mk "value" (CType.ptr (CType.constOf CType.char))],
  CFun.mk "ts3client_flushClientSelfUpdates" CType.uint [CParam.mk "serverConnectionHandlerID" CType.uint64, CParam.mk "returnCode" (CType.ptr (CType.constOf CType.char))]]

def clientExportsChunk4 : List CFun := [
  CFun.mk "ts3client_getClientVariableAsInt" CType.uint [CParam.mk "serverConnectionHandlerID" CType.uint64, CParam.mk "clientID" CType.anyID, CParam.mk "flag" CType.sizeT, CParam.mk "result" (CType.ptr CType.int)],
  CFun.mk "ts3client_getClientVariableAsUInt64" CType.uint [CParam.mk "serverConnectionHandlerID" CType.uint64, CParam.mk "clientID" CType.anyID, CParam.mk "flag" CType.sizeT, CParam.mk "result" (CType.ptr CType.uint64)],
  CFun.mk "ts3client_getClientVariableAsString" CType.uint [CParam.mk "serverConnectionHandlerID" CType.uint64, CParam.mk "clientID" CType.anyID, CParam.mk "flag" CType.sizeT, CParam.mk "result" (CType.ptr (CType.ptr CType.char))],
  CFun.mk "ts3client_getClientList" CType.uint [CParam.mk "serverConnectionHandlerID" CType.uint64, CParam.mk "result" (CType.ptr (CType.ptr CType.anyID))],
  CFun.mk "ts3client_getChannelOfClient" CType.uint [CParam.mk "serverConnectionHandlerID" CType.uint64, CParam.mk "clientID" CType.anyID, CParam.mk "result" (CType.ptr CType.uint64)],
  CFun.mk "ts3client_getChannelVariableAsInt" CType.uint [CParam.mk "serverConnectionHandlerID" CType.uint64, CParam.mk "channelID" CType.uint64, CParam.mk "flag" CType.sizeT, CParam.mk "result" (CType.ptr CType.int)],
  CFun.mk "ts3client_getChannelVariableAsUInt64" CType.uint [CParam.mk "serverConnectionHandlerID" CType.uint64, CParam.mk "channelID" CType.uint64, CParam.mk "flag" CType.sizeT, CParam.mk "result" (CType.ptr CType.uint64)],
  CFun.mk "ts3client_getChannelVariableAsString" CType.uint [CParam.mk "serverConnectionHandlerID" CType.uint64, CParam.mk "channelID" CType.uint64, CParam.mk "flag" CType.sizeT, CParam.mk "result" (CType.ptr (CType.ptr CType.char))],
  CFun.mk "ts3client_getChannelIDFromChannelNames" CType.uint [CParam.mk "serverConnectionHandlerID" CType.uint64, CParam.mk "channelNameArray" (CType.ptr (CType.ptr CType.char)), CParam.mk "result" (CType.ptr CType.uint64)],
  CFun.mk "ts3client_setChannelVariableAsInt" CType.uint [CParam.mk "serverConnectionHandlerID" CType.uint64, CParam.mk "channelID" CType.uint64, CParam.mk "flag" CType.sizeT, CParam.mk "value" CType.int],
  CFun.mk "ts3client_setChannelVariableAsUInt64" CType.uint [CParam.mk "serverConnectionHandlerID" CType.uint64, CParam.mk "channelID" CType.uint64, CParam.mk "flag" CType.sizeT, CParam.mk "value" CType.uint64],
  CFun.mk "ts3client_setChannelVariableAsString" CType.uint [CParam.mk "serverConnectionHandlerID" CType.uint64, CParam.mk "channelID" CType.uint64, CParam.mk "flag" CType.sizeT, CParam.mk "value" (CType.ptr (CType.constOf CType.char))],
  CFun.mk "ts3client_flushChannelUpdates" CType.uint [CParam.mk "serverConnectionHandlerID" CType.uint64, CParam.mk "channelID" CType.uint64, CParam.mk "returnCode" (CType.ptr (CType.constOf CType.char))],
  CFun.mk "ts3client_flushChannelCreation" CType.uint [CParam.mk "serverConnectionHandlerID" CType.uint64, CParam.mk "channelParentID" CType.uint64, CParam.mk "returnCode" (CType.ptr (CType.constOf CType.char))],
  CFun.mk "ts3client_getChannelList" CType.uint [CParam.mk "serverConnectionHandlerID" CType.uint64, CParam.mk "result" (CType.ptr (CType.ptr CType.uint64))],
  CFun.mk "ts3client_getChannelClientList" CType.uint [CParam.mk "serverConnectionHandlerID" CType.uint64, CParam.mk "channelID" CType.uint64, CParam.mk "result" (CType.ptr (CType.ptr CType.anyID))],
  CFun.mk "ts3client_getParentChannelOfChannel" CType.uint [CParam.mk "serverConnectionHandlerID" CType.uint64, CParam.mk "channelID" CType.uint64, CParam.mk "result" (CType.ptr CType.uint64)],
  CFun.mk "ts3client_getChannelEmptySecs" CType.uint [CParam.mk "serverConnectionHandlerID" CType.uint64, CParam.mk "channelID" CType.uint64, CParam.mk "result" (CType.ptr CType.int)],
  CFun.mk "ts3client_getServerConnectionHandlerList" CType.uint [CParam.mk "result" (CType.ptr (CType.ptr CType.uint64))],
  CFun.mk "ts3client_getServerVariableAsInt" CType.uint [CParam.mk "serverConnectionHandlerID" CType.uint64, CParam.mk "flag" CType.sizeT, CParam.mk "result" (CType.ptr CType.int)],
  CFun.mk "ts3client_getServerVariableAsUInt64" CType.uint [CParam.mk "serverConnectionHandlerID" CType.uint64, CParam.mk "flag" CType.sizeT, CParam.mk "result" (CType.ptr CType.uint64)],
  CFun.mk "ts3client_getServerVariableAsString" CType.uint [CParam.mk "serverConnectionHandlerID" CType.uint64, CParam.mk "flag" CType.sizeT, CParam.mk "result" (CType.ptr (CType.ptr CType.char))],
  CFun.mk "ts3client_requestServerVariables" CType.uint [CParam.mk "serverConnectionHandlerID" CType.uint64, CParam.mk "returnCode" (CType.ptr (CType.constOf CType.char))],
  CFun.mk "ts3client_getTransferFileName" CType.uint [CParam.mk "transferID" CType.anyID, CParam.mk "result" (CType.ptr (CType.ptr CType.char))],
  CFun.mk "ts3client_getTransferFilePath" CType.uint [CParam.mk "transferID" CType.anyID, CParam.mk "result" (CType.ptr (CType.ptr CType.char))]]

def clientExportsChunk5 : List CFun := [
  CFun.mk "ts3client_getTransferFileRemotePath" CType.uint [CParam.mk "transferID" CType.anyID, CParam.mk "result" (CType.ptr (CType.ptr CType.char))],
  CFun.mk "ts3client_getTransferFileSize" CType.uint [CParam.mk "transferID" CType.anyID, CParam.mk "result" (CType.ptr CType.uint64)],
  CFun.mk "ts3client_getTransferFileSizeDone" CType.uint [CParam.mk "transferID" CType.anyID, CParam.mk "result" (CType.ptr CType.uint64)],
  CFun.mk "ts3client_isTransferSender" CType.uint [CParam.mk "transferID" CType.anyID, CParam.mk "result" (CType.ptr CType.int)],
  CFun.mk "ts3client_getTransferStatus" CType.uint [CParam.mk "transferID" CType.anyID, CParam.mk "result" (CType.ptr CType.int)],
  CFun.mk "ts3client_getCurrentTransferSpeed" CType.uint [CParam.mk "transferID" CType.anyID, CParam.mk "result" (CType.ptr CType.float)],
  CFun.mk "ts3client_getAverageTransferSpeed" CType.uint [CParam.mk "transferID" CType.anyID, CParam.mk "result" (CType.ptr CType.float)],
  CFun.mk "ts3client_getTransferRunTime" CType.uint [CParam.mk "transferID" CType.anyID, CParam.mk "result" (CType.ptr CType.uint64)],
  CFun.mk "ts3client_sendFile" CType.uint [CParam.mk "serverConnectionHandlerID" CType.uint64, CParam.mk "channelID" CType.uint64, CParam.mk "channelPW" (CType.ptr (CType.constOf CType.char)), CParam.mk "file" (CType.ptr (CType.constOf CType.char)), CParam.mk "overwrite" CType.int, CParam.mk "resume" CType.int, CParam.mk "sourceDirectory" (CType.ptr (CType.constOf CType.char)), CParam.mk "result" (CType.ptr CType.anyID), CParam.mk "returnCode" (CType.ptr (CType.constOf CType.char))],
  CFun.mk "ts3client_requestFile" CType.uint [CParam.mk "serverConnectionHandlerID" CType.uint64, CParam.mk "channelID" CType.uint64, CParam.mk "channelPW" (CType.ptr (CType.constOf CType.char)), CParam.mk "file" (CType.ptr (CType.constOf CType.char)), CParam.mk "overwrite" CType.int, CParam.mk "resume" CType.int, CParam.mk "destinationDirectory" (CType.ptr (CType.constOf CType.char)), CParam.mk "result" (CType.ptr CType.anyID), CParam.mk "returnCode" (CType.ptr (CType.constOf CType.char))],
  CFun.mk "ts3client_haltTransfer" CType.uint [CParam.mk "serverConnectionHandlerID" CType.uint64, CParam.mk "transferID" CType.anyID, CParam.mk "deleteUnfinishedFile" CType.int, CParam.mk "returnCode" (CType.ptr (CType.constOf CType.char))],
  CFun.mk "ts3client_requestFileList" CType.uint [CParam.mk "serverConnectionHandlerID" CType.uint64, CParam.mk "channelID" CType.uint64, CParam.mk "channelPW" (CType.ptr (CType.constOf CType.char)), CParam.mk "path" (CType.ptr (CType.constOf CType.char)), CParam.mk "returnCode" (CType.ptr (CType.constOf CType.char))],
  CFun.mk "ts3client_requestFileInfo" CType.uint [CParam.mk "serverConnectionHandlerID" CType.uint64, CParam.mk "channelID" CType.uint64, CParam.mk "channelPW" (CType.ptr (CType.constOf CType.char)), CParam.mk "file" (CType.ptr (CType.constOf CType.char)), CParam.mk "returnCode" (CType.ptr (CType.constOf CType.char))],
  CFun.mk "ts3client_requestDeleteFile" CType.uint [CParam.mk "serverConnectionHandlerID" CType.uint64, CParam.mk "channelID" CType.uint64, CParam.mk "channelPW" (CType.ptr (CType.constOf CType.char)), CParam.mk "file" (CType.ptr (CType.ptr (CType.constOf CType.char))), CParam.mk "returnCode" (CType.ptr (CType.constOf CType.char))],
  CFun.mk "ts3client_requestCreateDirectory" CType.uint [CParam.mk "serverConnectionHandlerID" CType.uint64, CParam.mk "channelID" CType.uint64, CParam.mk "channelPW" (CType.ptr (CType.constOf CType.char)), CParam.mk "directoryPath" (CType.ptr (CType.constOf CType.char)), CParam.mk "returnCode" (CType.ptr (CType.constOf CType.char))],
  CFun.mk "ts3client_requestRenameFile" CType.uint [CParam.mk "serverConnectionHandlerID" CType.uint64, CParam.mk "fromChannelID" CType.uint64, CParam.mk "fromChannelPW" (CType.ptr (CType.constOf CType.char)), CParam.mk "toChannelID" CType.uint64, CParam.mk "toChannelPW" (CType.ptr (CType.constOf CType.char)), CParam.mk "oldFile" (CType.ptr (CType.constOf CType.char)), CParam.mk "newFile" (CType.ptr (CType.constOf CType.char)), CParam.mk "returnCode" (CType.ptr (CType.constOf CType.char))],
  CFun.mk "ts3client_getInstanceSpeedLimitUp" CType.uint [CParam.mk "limit" (CType.ptr CType.uint64)],
  CFun.mk "ts3client_getInstanceSpeedLimitDown" CType.uint [CParam.mk "limit" (CType.ptr CType.uint64)],
  CFun.mk "ts3client_getServerConnectionHandlerSpeedLimitUp" CType.uint [CParam.mk "serverConnectionHandlerID" CType.uint64, CParam.mk "limit" (CType.ptr CType.uint64)],
  CFun.mk "ts3client_getServerConnectionHandlerSpeedLimitDown" CType.uint [CParam.mk "serverConnectionHandlerID" CType.uint64, CParam.mk "limit" (CType.ptr CType.uint64)],
  CFun.mk "ts3client_getTransferSpeedLimit" CType.uint [CParam.mk "transferID" CType.anyID, CParam.mk "limit" (CType.ptr CType.uint64)],
  CFun.mk "ts3client_setInstanceSpeedLimitUp" CType.uint [CParam.mk "newLimit" CType.uint64],
  CFun.mk "ts3client_setInstanceSpeedLimitDown" CType.uint [CParam.mk "newLimit" CType.uint64],
  CFun.mk "ts3client_setServerConnectionHandlerSpeedLimitUp" CType.uint [CParam.mk "serverConnectionHandlerID" CType.uint64, CParam.mk "newLimit" CType.uint64],
  CFun.mk "ts3client_setServerConnectionHandlerSpeedLimitDown" CType.uint [CParam.mk "serverConnectionHandlerID" CType.uint64, CParam.mk "newLimit" CType.uint64]]

def clientExportsChunk6 : List CFun := [
  CFun.mk "ts3client_setTransferSpeedLimit" CType.uint [CParam.mk "transferID" CType.anyID, CParam.mk "newLimit" CType.uint64],
  CFun.mk "ts3client_getChatLoginToken" CType.uint [CParam.mk "serverConnectionHandlerID" CType.uint64],
  CFun.mk "ts3client_getAuthenticationToken" CType.uint [CParam.mk "serverConnectionHandlerID" CType.uint64]]

def clientExports : List CFun :=
  clientExportsChunk0 ++ clientExportsChunk1 ++ clientExportsChunk2 ++ clientExportsChunk3 ++ clientExportsChunk4 ++ clientExportsChunk5 ++ clientExportsChunk6

def serverExportsChunk0 : List CFun := [
  CFun.mk "ts3server_freeMemory" CType.uint [CParam.mk "pointer" (CType.ptr CType.void)],
  CFun.mk "ts3server_initServerLib" CType.uint [CParam.mk "functionPointers" (CType.ptr (CType.constOf (CType.struct "ServerLibFunctions"))), CParam.mk "usedLogTypes" CType.int, CParam.mk "logFileFolder" (CType.ptr (CType.constOf CType.char))],
  CFun.mk "ts3server_enableFileManager" CType.uint [CParam.mk "filebase" (CType.ptr (CType.constOf CType.char)), CParam.mk "ips" (CType.ptr (CType.ptr (CType.constOf CType.char))), CParam.mk "port" CType.int, CParam.mk "downloadBandwidth" CType.uint64, CParam.mk "uploadBandwidth" CType.uint64],
  CFun.mk "ts3server_destroyServerLib" CType.uint [],
  CFun.mk "ts3server_disableClientCommand" CType.uint [CParam.mk "clientCommand" CType.int],
  CFun.mk "ts3server_getServerLibVersion" CType.uint [CParam.mk "result" (CType.ptr (CType.ptr CType.char))],
  CFun.mk "ts3server_getServerLibVersionNumber" CType.uint [CParam.mk "result" (CType.ptr CType.uint64)],
  CFun.mk "ts3server_setLogVerbosity" CType.uint [CParam.mk "logVerbosity" (CType.enum "LogLevel")],
  CFun.mk "ts3server_getGlobalErrorMessage" CType.uint [CParam.mk "globalErrorCode" CType.uint, CParam.mk "result" (CType.ptr (CType.ptr CType.char))],
  CFun.mk "ts3server_getClientVariableAsInt" CType.uint [CParam.mk "serverID" CType.uint64, CParam.mk "clientID" CType.anyID, CParam.mk "flag" (CType.enum "ClientProperties"), CParam.mk "result" (CType.ptr CType.int)],
  CFun.mk "ts3server_getClientVariableAsUInt64" CType.uint [CParam.mk "serverID" CType.uint64, CParam.mk "clientID" CType.anyID, CParam.mk "flag" (CType.enum "ClientProperties"), CParam.mk "result" (CType.ptr CType.uint64)],
  CFun.mk "ts3server_getClientVariableAsString" CType.uint [CParam.mk "serverID" CType.uint64, CParam.mk "clientID" CType.anyID, CParam.mk "flag" (CType.enum "ClientProperties"), CParam.mk "result" (CType.ptr (CType.ptr CType.char))],
  CFun.mk "ts3server_setClientVariableAsInt" CType.uint [CParam.mk "serverID" CType.uint64, CParam.mk "clientID" CType.anyID, CParam.mk "flag" (CType.enum "ClientProperties"), CParam.mk "value" CType.int],
  CFun.mk "ts3server_setClientVariableAsUInt64" CType.uint [CParam.mk "serverID" CType.uint64, CParam.mk "clientID" CType.anyID, CParam.mk "flag" (CType.enum "ClientProperties"), CParam.mk "value" CType.uint64],
  CFun.mk "ts3server_setClientVariableAsString" CType.uint [CParam.mk "serverID" CType.uint64, CParam.mk "clientID" CType.anyID, CParam.mk "flag" (CType.enum "ClientProperties"), CParam.mk "value" (CType.ptr (CType.constOf CType.char))],
  CFun.mk "ts3server_flushClientVariable" CType.uint [CParam.mk "serverID" CType.uint64, CParam.mk "clientID" CType.anyID],
  CFun.mk "ts3server_setClientWhisperList" CType.uint [CParam.mk "serverID" CType.uint64, CParam.mk "clID" CType.anyID, CParam.mk "channelID" (CType.ptr (CType.constOf CType.uint64)), CParam.mk "clientID" (CType.ptr (CType.constOf CType.anyID))],
  CFun.mk "ts3server_getClientList" CType.uint [CParam.mk "serverID" CType.uint64, CParam.mk "result" (CType.ptr (CType.ptr CType.anyID))],
  CFun.mk "ts3server_getChannelOfClient" CType.uint [CParam.mk "serverID" CType.uint64, CParam.mk "clientID" CType.anyID, CParam.mk "result" (CType.ptr CType.uint64)],
  CFun.mk "ts3server_clientMove" CType.uint [CParam.mk "serverID" CType.uint64, CParam.mk "newChannelID" CType.uint64, CParam.mk "clientIDArray" (CType.ptr (CType.constOf CType.anyID))],
  CFun.mk "ts3server_clientsKickFromServer" CType.uint [CParam.mk "serverID" CType.uint64, CParam.mk "clientIDArray" (CType.ptr (CType.constOf CType.anyID)), CParam.mk "kickReason" (CType.ptr (CType.constOf CType.char)), CParam.mk "failOnClientError" CType.int],
  CFun.mk "ts3server_getClientIDSfromUIDS" CType.uint [CParam.mk "serverID" CType.uint64, CParam.mk "clientUIDs" (CType.ptr (CType.ptr (CType.constOf CType.char))), CParam.mk "result" (CType.ptr (CType.ptr CType.anyID))],
  CFun.mk "ts3server_getChannelVariableAsInt" CType.uint [CParam.mk "serverID" CType.uint64, CParam.mk "channelID" CType.uint64, CParam.mk "flag" (CType.enum "ChannelProperties"), CParam.mk "result" (CType.ptr CType.int)],
  CFun.mk "ts3server_getChannelVariableAsUInt64" CType.uint [CParam.mk "serverID" CType.uint64, CParam.mk "channelID" CType.uint64, CParam.mk "flag" (CType.enum "ChannelProperties"), CParam.mk "result" (CType.ptr CType.uint64)],
  CFun.mk "ts3server_getChannelVariableAsString" CType.uint [CParam.mk "serverID" CType.uint64, CParam.mk "channelID" CType.uint64, CParam.mk "flag" (CType.enum "ChannelProperties"), CParam.mk "result" (CType.ptr (CType.ptr CType.char))]]

def serverExportsChunk1 : List CFun := [
  CFun.mk "ts3server_setChannelVariableAsInt" CType.uint [CParam.mk "serverID" CType.uint64, CParam.mk "channelID" CType.uint64, CParam.mk "flag" (CType.enum "ChannelProperties"), CParam.mk "value" CType.int],
  CFun.mk "ts3server_setChannelVariableAsUInt64" CType.uint [CParam.mk "serverID" CType.uint64, CParam.mk "channelID" CType.uint64, CParam.mk "flag" (CType.enum "ChannelProperties"), CParam.mk "value" CType.uint64],
  CFun.mk "ts3server_setChannelVariableAsString" CType.uint [CParam.mk "serverID" CType.uint64, CParam.mk "channelID" CType.uint64, CParam.mk "flag" (CType.enum "ChannelProperties"), CParam.mk "value" (CType.ptr (CType.constOf CType.char))],
  CFun.mk "ts3server_flushChannelVariable" CType.uint [CParam.mk "serverID" CType.uint64, CParam.mk "channelID" CType.uint64],
  CFun.mk "ts3server_flushChannelCreation" CType.uint [CParam.mk "serverID" CType.uint64, CParam.mk "channelParentID" CType.uint64, CParam.mk "result" (CType.ptr CType.uint64)],
  CFun.mk "ts3server_makeChannelCreationParams" CType.uint [CParam.mk "result" (CType.ptr (CType.ptr (CType.struct "TS3ChannelCreationParams")))],
  CFun.mk "ts3server_setChannelCreationParams" CType.uint [CParam.mk "channelCreationParams" (CType.ptr (CType.struct "TS3ChannelCreationParams")), CParam.mk "channelParentID" CType.uint64, CParam.mk "channelID" CType.uint64],
  CFun.mk "ts3server_getChannelCreationParamsVariables" CType.uint [CParam.mk "channelCreationParams" (CType.ptr (CType.struct "TS3ChannelCreationParams")), CParam.mk "result" (CType.ptr (CType.ptr (CType.struct "TS3Variables")))],
  CFun.mk "ts3server_createChannel" CType.uint [CParam.mk "serverID" CType.uint64, CParam.mk "channelCreationParams" (CType.ptr (CType.struct "TS3ChannelCreationParams")), CParam.mk "flags" (CType.enum "ChannelCreateFlags"), CParam.mk "result" (CType.ptr CType.uint64)],
  CFun.mk "ts3server_getChannelList" CType.uint [CParam.mk "serverID" CType.uint64, CParam.mk "result" (CType.ptr (CType.ptr CType.uint64))],
  CFun.mk "ts3server_getChannelClientList" CType.uint [CParam.mk "serverID" CType.uint64, CParam.mk "channelID" CType.uint64, CParam.mk "result" (CType.ptr (CType.ptr CType.anyID))],
  CFun.mk "ts3server_getParentChannelOfChannel" CType.uint [CParam.mk "serverID" CType.uint64, CParam.mk "channelID" CType.uint64, CParam.mk "result" (CType.ptr CType.uint64)],
  CFun.mk "ts3server_channelDelete" CType.uint [CParam.mk "serverID" CType.uint64, CParam.mk "channelID" CType.uint64, CParam.mk "force" CType.int],
  CFun.mk "ts3server_channelMove" CType.uint [CParam.mk "serverID" CType.uint64, CParam.mk "channelID" CType.uint64, CParam.mk "newChannelParentID" CType.uint64, CParam.mk "newOrder" CType.uint64],
  CFun.mk "ts3server_getVirtualServerVariableAsInt" CType.uint [CParam.mk "serverID" CType.uint64, CParam.mk "flag" (CType.enum "VirtualServerProperties"), CParam.mk "result" (CType.ptr CType.int)],
  CFun.mk "ts3server_getVirtualServerVariableAsUInt64" CType.uint [CParam.mk "serverID" CType.uint64, CParam.mk "flag" (CType.enum "VirtualServerProperties"), CParam.mk "result" (CType.ptr CType.uint64)],
  CFun.mk "ts3server_getVirtualServerVariableAsString" CType.uint [CParam.mk "serverID" CType.uint64, CParam.mk "flag" (CType.enum "VirtualServerProperties"), CParam.mk "result" (CType.ptr (CType.ptr CType.char))],
  CFun.mk "ts3server_setVirtualServerVariableAsInt" CType.uint [CParam.mk "serverID" CType.uint64, CParam.mk "flag" (CType.enum "VirtualServerProperties"), CParam.mk "value" CType.int],
  CFun.mk "ts3server_setVirtualServerVariableAsUInt64" CType.uint [CParam.mk "serverID" CType.uint64, CParam.mk "flag" (CType.enum "VirtualServerProperties"), CParam.mk "value" CType.uint64],
  CFun.mk "ts3server_setVirtualServerVariableAsString" CType.uint [CParam.mk "serverID" CType.uint64, CParam.mk "flag" (CType.enum "VirtualServerProperties"), CParam.mk "value" (CType.ptr (CType.constOf CType.char))],
  CFun.mk "ts3server_flushVirtualServerVariable" CType.uint [CParam.mk "serverID" CType.uint64],
  CFun.mk "ts3server_makeVirtualServerCreationParams" CType.uint [CParam.mk "result" (CType.ptr (CType.ptr (CType.struct "TS3VirtualServerCreationParams")))],
  CFun.mk "ts3server_setVirtualServerCreationParams" CType.uint [CParam.mk "virtualServerCreationParams" (CType.ptr (CType.struct "TS3VirtualServerCreationParams")), CParam.mk "serverPort" CType.uint, CParam.mk "serverIp" (CType.ptr (CType.constOf CType.char)), CParam.mk "serverKeyPair" (CType.ptr (CType.constOf CType.char)), CParam.mk "serverMaxClients" CType.uint, CParam.mk "channelCount" CType.uint, CParam.mk "serverID" CType.uint64],
  CFun.mk "ts3server_getVirtualServerCreationParamsVariables" CType.uint [CParam.mk "virtualServerCreationParams" (CType.ptr (CType.struct "TS3VirtualServerCreationParams")), CParam.mk "result" (CType.ptr (CType.ptr (CType.struct "TS3Variables")))],
  CFun.mk "ts3server_getVirtualServerCreationParamsChannelCreationParams" CType.uint [CParam.mk "virtualServerCreationParams" (CType.ptr (CType.struct "TS3VirtualServerCreationParams")), CParam.mk "channelIdx" CType.uint, CParam.mk "result" (CType.ptr (CType.ptr (CType.struct "TS3ChannelCreationParams")))]]

def serverExportsChunk2 : List CFun := [
  CFun.mk "ts3server_createVirtualServer2" CType.uint [CParam.mk "virtualServerCreationParams" (CType.ptr (CType.struct "TS3VirtualServerCreationParams")), CParam.mk "flags" (CType.enum "VirtualServerCreateFlags"), CParam.mk "result" (CType.ptr CType.uint64)],
  CFun.mk "ts3server_getVirtualServerConnectionVariableAsUInt64" CType.uint [CParam.mk "serverID" CType.uint64, CParam.mk "flag" (CType.enum "ConnectionProperties"), CParam.mk "result" (CType.ptr CType.uint64)],
  CFun.mk "ts3server_getVirtualServerConnectionVariableAsDouble" CType.uint [CParam.mk "serverID" CType.uint64, CParam.mk "flag" (CType.enum "ConnectionProperties"), CParam.mk "result" (CType.ptr CType.double)],
  CFun.mk "ts3server_getVirtualServerList" CType.uint [CParam.mk "result" (CType.ptr (CType.ptr CType.uint64))],
  CFun.mk "ts3server_stopVirtualServer" CType.uint [CParam.mk "serverID" CType.uint64],
  CFun.mk "ts3server_createVirtualServer" CType.uint [CParam.mk "serverPort" CType.uint, CParam.mk "serverIp" (CType.ptr (CType.constOf CType.char)), CParam.mk "serverName" (CType.ptr (CType.constOf CType.char)), CParam.mk "serverKeyPair" (CType.ptr (CType.constOf CType.char)), CParam.mk "serverMaxClients" CType.uint, CParam.mk "result" (CType.ptr CType.uint64)],
  CFun.mk "ts3server_getVirtualServerKeyPair" CType.uint [CParam.mk "serverID" CType.uint64, CParam.mk "result" (CType.ptr (CType.ptr CType.char))],
  CFun.mk "ts3server_createSecuritySalt" CType.uint [CParam.mk "options" CType.int, CParam.mk "salt" (CType.ptr CType.void), CParam.mk "saltByteSize" CType.int, CParam.mk "securitySalt" (CType.ptr (CType.ptr CType.char))],
  CFun.mk "ts3server_calculateSecurityHash" CType.uint [CParam.mk "securitySalt" (CType.ptr (CType.constOf CType.char)), CParam.mk "clientUniqueIdentifier" (CType.ptr (CType.constOf CType.char)), CParam.mk "clientNickName" (CType.ptr (CType.constOf CType.char)), CParam.mk "clientMetaData" (CType.ptr (CType.constOf CType.char)), CParam.mk "securityHash" (CType.ptr (CType.ptr CType.char))],
  CFun.mk "ts3server_getVariableAsInt" CType.uint [CParam.mk "var" (CType.ptr (CType.struct "TS3Variables")), CParam.mk "flag" CType.int, CParam.mk "result" (CType.ptr CType.int)],
  CFun.mk "ts3server_getVariableAsUInt64" CType.uint [CParam.mk "var" (CType.ptr (CType.struct "TS3Variables")), CParam.mk "flag" CType.int, CParam.mk "result" (CType.ptr CType.uint64)],
  CFun.mk "ts3server_getVariableAsString" CType.uint [CParam.mk "var" (CType.ptr (CType.struct "TS3Variables")), CParam.mk "flag" CType.int, CParam.mk "result" (CType.ptr (CType.ptr CType.char))],
  CFun.mk "ts3server_setVariableAsInt" CType.uint [CParam.mk "var" (CType.ptr (CType.struct "TS3Variables")), CParam.mk "flag" CType.int, CParam.mk "value" CType.int],
  CFun.mk "ts3server_setVariableAsUInt64" CType.uint [CParam.mk "var" (CType.ptr (CType.struct "TS3Variables")), CParam.mk "flag" CType.int, CParam.mk "value" CType.uint64],
  CFun.mk "ts3server_setVariableAsString" CType.uint [CParam.mk "var" (CType.ptr (CType.struct "TS3Variables")), CParam.mk "flag" CType.int, CParam.mk "value" (CType.ptr (CType.constOf CType.char))]]

def serverExports : List CFun :=
  serverExportsChunk0 ++ serverExportsChunk1 ++ serverExportsChunk2

def clientUIFunctionsChunk0 : List CFun := [
  CFun.mk "onConnectStatusChangeEvent" CType.void [CParam.mk "serverConnectionHandlerID" CType.uint64, CParam.mk "newStatus" CType.int, CParam.mk "errorNumber" CType.uint],
  CFun.mk "onServerProtocolVersionEvent" CType.void [CParam.mk "serverConnectionHandlerID" CType.uint64, CParam.mk "protocolVersion" CType.int],
  CFun.mk "onNewChannelEvent" CType.void [CParam.mk "serverConnectionHandlerID" CType.uint64, CParam.mk "channelID" CType.uint64, CParam.mk "channelParentID" CType.uint64],
  CFun.mk "onNewChannelCreatedEvent" CType.void [CParam.mk "serverConnectionHandlerID" CType.uint64, CParam.mk "channelID" CType.uint64, CParam.mk "channelParentID" CType.uint64, CParam.mk "invokerID" CType.anyID, CParam.mk "invokerName" (CType.ptr (CType.constOf CType.char)), CParam.mk "invokerUniqueIdentifier" (CType.ptr (CType.constOf CType.char))],
  CFun.mk "onDelChannelEvent" CType.void [CParam.mk "serverConnectionHandlerID" CType.uint64, CParam.mk "channelID" CType.uint64, CParam.mk "invokerID" CType.anyID, CParam.mk "invokerName" (CType.ptr (CType.constOf CType.char)), CParam.mk "invokerUniqueIdentifier" (CType.ptr (CType.constOf CType.char))],
  CFun.mk "onChannelMoveEvent" CType.void [CParam.mk "serverConnectionHandlerID" CType.uint64, CParam.mk "channelID" CType.uint64, CParam.mk "newChannelParentID" CType.uint64, CParam.mk "invokerID" CType.anyID, CParam.mk "invokerName" (CType.ptr (CType.constOf CType.char)), CParam.mk "invokerUniqueIdentifier" (CType.ptr (CType.constOf CType.char))],
  CFun.mk "onUpdateChannelEvent" CType.void [CParam.mk "serverConnectionHandlerID" CType.uint64, CParam.mk "channelID" CType.uint64],
  CFun.mk "onUpdateChannelEditedEvent" CType.void [CParam.mk "serverConnectionHandlerID" CType.uint64, CParam.mk "channelID" CType.uint64, CParam.mk "invokerID" CType.anyID, CParam.mk "invokerName" (CType.ptr (CType.constOf CType.char)), CParam.mk "invokerUniqueIdentifier" (CType.ptr (CType.constOf CType.char))],
  CFun.mk "onUpdateClientEvent" CType.void [CParam.mk "serverConnectionHandlerID" CType.uint64, CParam.mk "clientID" CType.anyID, CParam.mk "invokerID" CType.anyID, CParam.mk "invokerName" (CType.ptr (CType.constOf CType.char)), CParam.mk "invokerUniqueIdentifier" (CType.ptr (CType.constOf CType.char))],
  CFun.mk "onClientMoveEvent" CType.void [CParam.mk "serverConnectionHandlerID" CType.uint64, CParam.mk "clientID" CType.anyID, CParam.mk "oldChannelID" CType.uint64, CParam.mk "newChannelID" CType.uint64, CParam.mk "visibility" CType.int, CParam.mk "moveMessage" (CType.ptr (CType.constOf CType.char))],
  CFun.mk "onClientMoveSubscriptionEvent" CType.void [CParam.mk "serverConnectionHandlerID" CType.uint64, CParam.mk "clientID" CType.anyID, CParam.mk "oldChannelID" CType.uint64, CParam.mk "newChannelID" CType.uint64, CParam.mk "visibility" CType.int],
  CFun.mk "onClientMoveTimeoutEvent" CType.void [CParam.mk "serverConnectionHandlerID" CType.uint64, CParam.mk "clientID" CType.anyID, CParam.mk "oldChannelID" CType.uint64, CParam.mk "newChannelID" CType.uint64, CParam.mk "visibility" CType.int, CParam.mk "timeoutMessage" (CType.ptr (CType.constOf CType.char))],
  CFun.mk "onClientMoveMovedEvent" CType.void [CParam.mk "serverConnectionHandlerID" CType.uint64, CParam.mk "clientID" CType.anyID, CParam.mk "oldChannelID" CType.uint64, CParam.mk "newChannelID" CType.uint64, CParam.mk "visibility" CType.int, CParam.mk "moverID" CType.anyID, CParam.mk "moverName" (CType.ptr (CType.constOf CType.char)), CParam.mk "moverUniqueIdentifier" (CType.ptr (CType.constOf CType.char)), CParam.mk "moveMessage" (CType.ptr (CType.constOf CType.char))],
  CFun.mk "onClientKickFromChannelEvent" CType.void [CParam.mk "serverConnectionHandlerID" CType.uint64, CParam.mk "clientID" CType.anyID, CParam.mk "oldChannelID" CType.uint64, CParam.mk "newChannelID" CType.uint64, CParam.mk "visibility" CType.int, CParam.mk "kickerID" CType.anyID, CParam.mk "kickerName" (CType.ptr (CType.constOf CType.char)), CParam.mk "kickerUniqueIdentifier" (CType.ptr (CType.constOf CType.char)), CParam.mk "kickMessage" (CType.ptr (CType.constOf CType.char))],
  CFun.mk "onClientKickFromServerEvent" CType.void [CParam.mk "serverConnectionHandlerID" CType.uint64, CParam.mk "clientID" CType.anyID, CParam.mk "oldChannelID" CType.uint64, CParam.mk "newChannelID" CType.uint64, CParam.mk "visibility" CType.int, CParam.mk "kickerID" CType.anyID, CParam.mk "kickerName" (CType.ptr (CType.constOf CType.char)), CParam.mk "kickerUniqueIdentifier" (CType.ptr (CType.constOf CType.char)), CParam.mk "kickMessage" (CType.ptr (CType.constOf CType.char))],
  CFun.mk "onClientIDsEvent" CType.void [CParam.mk "serverConnectionHandlerID" CType.uint64, CParam.mk "uniqueClientIdentifier" (CType.ptr (CType.constOf CType.char)), CParam.mk "clientID" CType.anyID, CParam.mk "clientName" (CType.ptr (CType.constOf CType.char))],
  CFun.mk "onClientIDsFinishedEvent" CType.void [CParam.mk "serverConnectionHandlerID" CType.uint64],
  CFun.mk "onServerEditedEvent" CType.void [CParam.mk "serverConnectionHandlerID" CType.uint64, CParam.mk "editerID" CType.anyID, CParam.mk "editerName" (CType.ptr (CType.constOf CType.char)), CParam.mk "editerUniqueIdentifier" (CType.ptr (CType.constOf CType.char))],
  CFun.mk "onServerUpdatedEvent" CType.void [CParam.mk "serverConnectionHandlerID" CType.uint64],
  CFun.mk "onServerErrorEvent" CType.void [CParam.mk "serverConnectionHandlerID" CType.uint64, CParam.mk "errorMessage" (CType.ptr (CType.constOf CType.char)), CParam.mk "error" CType.uint, CParam.mk "returnCode" (CType.ptr (CType.constOf CType.char)), CParam.mk "extraMessage" (CType.ptr (CType.constOf CType.char))],
  CFun.mk "onServerStopEvent" CType.void [CParam.mk "serverConnectionHandlerID" CType.uint64, CParam.mk "shutdownMessage" (CType.ptr (CType.constOf CType.char))],
  CFun.mk "onTextMessageEvent" CType.void [CParam.mk "serverConnectionHandlerID" CType.uint64, CParam.mk "targetMode" CType.anyID, CParam.mk "toID" CType.anyID, CParam.mk "fromID" CType.anyID, CParam.mk "fromName" (CType.ptr (CType.constOf CType.char)), CParam.mk "fromUniqueIdentifier" (CType.ptr (CType.constOf CType.char)), CParam.mk "message" (CType.ptr (CType.constOf CType.char))],
  CFun.mk "onTalkStatusChangeEvent" CType.void [CParam.mk "serverConnectionHandlerID" CType.uint64, CParam.mk "status" CType.int, CParam.mk "isReceivedWhisper" CType.int, CParam.mk "clientID" CType.anyID],
  CFun.mk "onIgnoredWhisperEvent" CType.void [CParam.mk "serverConnectionHandlerID" CType.uint64, CParam.mk "clientID" CType.anyID],
  CFun.mk "onConnectionInfoEvent" CType.void [CParam.mk "serverConnectionHandlerID" CType.uint64, CParam.mk "clientID" CType.anyID]]

def clientUIFunctionsChunk1 : List CFun := [
  CFun.mk "onServerConnectionInfoEvent" CType.void [CParam.mk "serverConnectionHandlerID" CType.uint64],
  CFun.mk "onChannelSubscribeEvent" CType.void [CParam.mk "serverConnectionHandlerID" CType.uint64, CParam.mk "channelID" CType.uint64],
  CFun.mk "onChannelSubscribeFinishedEvent" CType.void [CParam.mk "serverConnectionHandlerID" CType.uint64],
  CFun.mk "onChannelUnsubscribeEvent" CType.void [CParam.mk "serverConnectionHandlerID" CType.uint64, CParam.mk "channelID" CType.uint64],
  CFun.mk "onChannelUnsubscribeFinishedEvent" CType.void [CParam.mk "serverConnectionHandlerID" CType.uint64],
  CFun.mk "onChannelDescriptionUpdateEvent" CType.void [CParam.mk "serverConnectionHandlerID" CType.uint64, CParam.mk "channelID" CType.uint64],
  CFun.mk "onChannelPasswordChangedEvent" CType.void [CParam.mk "serverConnectionHandlerID" CType.uint64, CParam.mk "channelID" CType.uint64],
  CFun.mk "onPlaybackShutdownCompleteEvent" CType.void [CParam.mk "serverConnectionHandlerID" CType.uint64],
  CFun.mk "onSoundDeviceListChangedEvent" CType.void [CParam.mk "modeID" (CType.ptr (CType.constOf CType.char)), CParam.mk "playOrCap" CType.int],
  CFun.mk "onEditPlaybackVoiceDataEvent" CType.void [CParam.mk "serverConnectionHandlerID" CType.uint64, CParam.mk "clientID" CType.anyID, CParam.mk "samples" (CType.ptr CType.short), CParam.mk "sampleCount" CType.int, CParam.mk "channels" CType.int],
  CFun.mk "onEditPostProcessVoiceDataEvent" CType.void [CParam.mk "serverConnectionHandlerID" CType.uint64, CParam.mk "clientID" CType.anyID, CParam.mk "samples" (CType.ptr CType.short), CParam.mk "sampleCount" CType.int, CParam.mk "channels" CType.int, CParam.mk "channelSpeakerArray" (CType.ptr (CType.constOf CType.uint)), CParam.mk "channelFillMask" (CType.ptr CType.uint)],
  CFun.mk "onEditMixedPlaybackVoiceDataEvent" CType.void [CParam.mk "serverConnectionHandlerID" CType.uint64, CParam.mk "samples" (CType.ptr CType.short), CParam.mk "sampleCount" CType.int, CParam.mk "channels" CType.int, CParam.mk "channelSpeakerArray" (CType.ptr (CType.constOf CType.uint)), CParam.mk "channelFillMask" (CType.ptr CType.uint)],
  CFun.mk "onEditCapturedVoiceDataPreprocessEvent" CType.void [CParam.mk "serverConnectionHandlerID" CType.uint64, CParam.mk "samples" (CType.ptr CType.short), CParam.mk "sampleCount" CType.int, CParam.mk "channels" CType.int, CParam.mk "flags" (CType.ptr CType.int)],
  CFun.mk "onEditCapturedVoiceDataEvent" CType.void [CParam.mk "serverConnectionHandlerID" CType.uint64, CParam.mk "samples" (CType.ptr CType.short), CParam.mk "sampleCount" CType.int, CParam.mk "channels" CType.int, CParam.mk "edited" (CType.ptr CType.int)],
  CFun.mk "onCustom3dRolloffCalculationClientEvent" CType.void [CParam.mk "serverConnectionHandlerID" CType.uint64, CParam.mk "clientID" CType.anyID, CParam.mk "distance" CType.float, CParam.mk "volume" (CType.ptr CType.float)],
  CFun.mk "onCustom3dRolloffCalculationWaveEvent" CType.void [CParam.mk "serverConnectionHandlerID" CType.uint64, CParam.mk "waveHandle" CType.uint64, CParam.mk "distance" CType.float, CParam.mk "volume" (CType.ptr CType.float)],
  CFun.mk "onUserLoggingMessageEvent" CType.void [CParam.mk "logmessage" (CType.ptr (CType.constOf CType.char)), CParam.mk "logLevel" CType.int, CParam.mk "logChannel" (CType.ptr (CType.constOf CType.char)), CParam.mk "logID" CType.uint64, CParam.mk "logTime" (CType.ptr (CType.constOf CType.char)), CParam.mk "completeLogString" (CType.ptr (CType.constOf CType.char))],
  CFun.mk "onCustomPacketEncryptEvent" CType.void [CParam.mk "dataToSend" (CType.ptr (CType.ptr CType.char)), CParam.mk "sizeOfData" (CType.ptr CType.uint)],
  CFun.mk "onCustomPacketDecryptEvent" CType.void [CParam.mk "dataReceived" (CType.ptr (CType.ptr CType.char)), CParam.mk "dataReceivedSize" (CType.ptr CType.uint)],
  CFun.mk "onProvisioningSlotRequestResultEvent" CType.void [CParam.mk "error" CType.uint, CParam.mk "requestHandle" CType.uint64, CParam.mk "connectionKey" (CType.ptr (CType.constOf CType.char))],
  CFun.mk "onCheckServerUniqueIdentifierEvent" CType.void [CParam.mk "serverConnectionHandlerID" CType.uint64, CParam.mk "ServerUniqueIdentifier" (CType.ptr (CType.constOf CType.char)), CParam.mk "cancelConnect" (CType.ptr CType.int)],
  CFun.mk "onClientPasswordEncrypt" CType.void [CParam.mk "serverConnectionHandlerID" CType.uint64, CParam.mk "plaintext" (CType.ptr (CType.constOf CType.char)), CParam.mk "encryptedText" (CType.ptr CType.char), CParam.mk "encryptedTextByteSize" CType.int],
  CFun.mk "onFileTransferStatusEvent" CType.void [CParam.mk "transferID" CType.anyID, CParam.mk "status" CType.uint, CParam.mk "statusMessage" (CType.ptr (CType.constOf CType.char)), CParam.mk "remotefileSize" CType.uint64, CParam.mk "serverConnectionHandlerID" CType.uint64],
  CFun.mk "onFileListEvent" CType.void [CParam.mk "serverConnectionHandlerID" CType.uint64, CParam.mk "channelID" CType.uint64, CParam.mk "path" (CType.ptr (CType.constOf CType.char)), CParam.mk "name" (CType.ptr (CType.constOf CType.char)), CParam.mk "size" CType.uint64, CParam.mk "datetime" CType.uint64, CParam.mk "type" CType.int, CParam.mk "incompletesize" CType.uint64, CParam.mk "returnCode" (CType.ptr (CType.constOf CType.char))],
  CFun.mk "onFileListFinishedEvent" CType.void [CParam.mk "serverConnectionHandlerID" CType.uint64, CParam.mk "channelID" CType.uint64, CParam.mk "path" (CType.ptr (CType.constOf CType.char))]]

def clientUIFunctionsChunk2 : List CFun := [
  CFun.mk "onFileInfoEvent" CType.void [CParam.mk "serverConnectionHandlerID" CType.uint64, CParam.mk "channelID" CType.uint64, CParam.mk "name" (CType.ptr (CType.constOf CType.char)), CParam.mk "size" CType.uint64, CParam.mk "datetime" CType.uint64],
  CFun.mk "onChatLoginTokenEvent" CType.void [CParam.mk "serverConnectionHandlerID" CType.uint64, CParam.mk "token" (CType.ptr (CType.constOf CType.char))],
  CFun.mk "onAuthenticationTokenEvent" CType.void [CParam.mk "serverConnectionHandlerID" CType.uint64, CParam.mk "token" (CType.ptr (CType.constOf CType.char))]]

def clientUIFunctions : List CFun :=
  clientUIFunctionsChunk0 ++ clientUIFunctionsChunk1 ++ clientUIFunctionsChunk2

def serverLibFunctionsChunk0 : List CFun := [
  CFun.mk "onVoiceDataEvent" CType.void [CParam.mk "serverID" CType.uint64, CParam.mk "clientID" CType.anyID, CParam.mk "voiceData" (CType.ptr CType.uchar), CParam.mk "voiceDataSize" CType.uint, CParam.mk "frequency" CType.uint],
  CFun.mk "onClientStartTalkingEvent" CType.void [CParam.mk "serverID" CType.uint64, CParam.mk "clientID" CType.anyID],
  CFun.mk "onClientStopTalkingEvent" CType.void [CParam.mk "serverID" CType.uint64, CParam.mk "clientID" CType.anyID],
  CFun.mk "onClientConnected" CType.void [CParam.mk "serverID" CType.uint64, CParam.mk "clientID" CType.anyID, CParam.mk "channelID" CType.uint64, CParam.mk "removeClientError" (CType.ptr CType.uint)],
  CFun.mk "onClientDisconnected" CType.void [CParam.mk "serverID" CType.uint64, CParam.mk "clientID" CType.anyID, CParam.mk "channelID" CType.uint64],
  CFun.mk "onClientMoved" CType.void [CParam.mk "serverID" CType.uint64, CParam.mk "clientID" CType.anyID, CParam.mk "oldChannelID" CType.uint64, CParam.mk "newChannelID" CType.uint64],
  CFun.mk "onChannelCreated" CType.void [CParam.mk "serverID" CType.uint64, CParam.mk "invokerClientID" CType.anyID, CParam.mk "channelID" CType.uint64],
  CFun.mk "onChannelEdited" CType.void [CParam.mk "serverID" CType.uint64, CParam.mk "invokerClientID" CType.anyID, CParam.mk "channelID" CType.uint64],
  CFun.mk "onChannelDeleted" CType.void [CParam.mk "serverID" CType.uint64, CParam.mk "invokerClientID" CType.anyID, CParam.mk "channelID" CType.uint64],
  CFun.mk "onServerTextMessageEvent" CType.void [CParam.mk "serverID" CType.uint64, CParam.mk "invokerClientID" CType.anyID, CParam.mk "textMessage" (CType.ptr (CType.constOf CType.char))],
  CFun.mk "onChannelTextMessageEvent" CType.void [CParam.mk "serverID" CType.uint64, CParam.mk "invokerClientID" CType.anyID, CParam.mk "targetChannelID" CType.uint64, CParam.mk "textMessage" (CType.ptr (CType.constOf CType.char))],
  CFun.mk "onUserLoggingMessageEvent" CType.void [CParam.mk "logmessage" (CType.ptr (CType.constOf CType.char)), CParam.mk "logLevel" CType.int, CParam.mk "logChannel" (CType.ptr (CType.constOf CType.char)), CParam.mk "logID" CType.uint64, CParam.mk "logTime" (CType.ptr (CType.constOf CType.char)), CParam.mk "completeLogString" (CType.ptr (CType.constOf CType.char))],
  CFun.mk "onAccountingErrorEvent" CType.void [CParam.mk "serverID" CType.uint64, CParam.mk "errorCode" CType.uint],
  CFun.mk "onCustomPacketEncryptEvent" CType.void [CParam.mk "dataToSend" (CType.ptr (CType.ptr CType.char)), CParam.mk "sizeOfData" (CType.ptr CType.uint)],
  CFun.mk "onCustomPacketDecryptEvent" CType.void [CParam.mk "dataReceived" (CType.ptr (CType.ptr CType.char)), CParam.mk "dataReceivedSize" (CType.ptr CType.uint)],
  CFun.mk "onFileTransferEvent" CType.void [CParam.mk "data" (CType.ptr (CType.constOf (CType.struct "FileTransferCallbackExport")))],
  CFun.mk "permClientCanConnect" CType.uint [CParam.mk "serverID" CType.uint64, CParam.mk "client" (CType.ptr (CType.constOf (CType.struct "ClientMiniExport")))],
  CFun.mk "permClientCanGetChannelDescription" CType.uint [CParam.mk "serverID" CType.uint64, CParam.mk "client" (CType.ptr (CType.constOf (CType.struct "ClientMiniExport")))],
  CFun.mk "permClientUpdate" CType.uint [CParam.mk "serverID" CType.uint64, CParam.mk "clientID" CType.anyID, CParam.mk "variables" (CType.ptr (CType.constOf (CType.struct "VariablesExport")))],
  CFun.mk "permClientKickFromChannel" CType.uint [CParam.mk "serverID" CType.uint64, CParam.mk "client" (CType.ptr (CType.constOf (CType.struct "ClientMiniExport"))), CParam.mk "toKickCount" CType.int, CParam.mk "toKickClients" (CType.ptr (CType.constOf (CType.struct "ClientMiniExport"))), CParam.mk "reasonText" (CType.ptr (CType.constOf CType.char))],
  CFun.mk "permClientKickFromServer" CType.uint [CParam.mk "serverID" CType.uint64, CParam.mk "client" (CType.ptr (CType.constOf (CType.struct "ClientMiniExport"))), CParam.mk "toKickCount" CType.int, CParam.mk "toKickClients" (CType.ptr (CType.constOf (CType.struct "ClientMiniExport"))), CParam.mk "reasonText" (CType.ptr (CType.constOf CType.char))],
  CFun.mk "permClientMove" CType.uint [CParam.mk "serverID" CType.uint64, CParam.mk "client" (CType.ptr (CType.constOf (CType.struct "ClientMiniExport"))), CParam.mk "toMoveCount" CType.int, CParam.mk "toMoveClients" (CType.ptr (CType.constOf (CType.struct "ClientMiniExport"))), CParam.mk "newChannel" CType.uint64, CParam.mk "reasonText" (CType.ptr (CType.constOf CType.char))],
  CFun.mk "permChannelMove" CType.uint [CParam.mk "serverID" CType.uint64, CParam.mk "client" (CType.ptr (CType.constOf (CType.struct "ClientMiniExport"))), CParam.mk "channelID" CType.uint64, CParam.mk "newParentChannelID" CType.uint64],
  CFun.mk "permSendTextMessage" CType.uint [CParam.mk "serverID" CType.uint64, CParam.mk "client" (CType.ptr (CType.constOf (CType.struct "ClientMiniExport"))), CParam.mk "targetMode" CType.anyID, CParam.mk "targetClientOrChannel" CType.uint64, CParam.mk "textMessage" (CType.ptr (CType.constOf CType.char))],
  CFun.mk "permServerRequestConnectionInfo" CType.uint [CParam.mk "serverID" CType.uint64, CParam.mk "client" (CType.ptr (CType.constOf (CType.struct "ClientMiniExport")))]]

def serverLibFunctionsChunk1 : List CFun := [
  CFun.mk "permSendConnectionInfo" CType.uint [CParam.mk "serverID" CType.uint64, CParam.mk "client" (CType.ptr (CType.constOf (CType.struct "ClientMiniExport"))), CParam.mk "mayViewIpPort" (CType.ptr CType.int), CParam.mk "targetClient" (CType.ptr (CType.constOf (CType.struct "ClientMiniExport")))],
  CFun.mk "permChannelCreate" CType.uint [CParam.mk "serverID" CType.uint64, CParam.mk "client" (CType.ptr (CType.constOf (CType.struct "ClientMiniExport"))), CParam.mk "parentChannelID" CType.uint64, CParam.mk "variables" (CType.ptr (CType.constOf (CType.struct "VariablesExport")))],
  CFun.mk "permChannelEdit" CType.uint [CParam.mk "serverID" CType.uint64, CParam.mk "client" (CType.ptr (CType.constOf (CType.struct "ClientMiniExport"))), CParam.mk "channelID" CType.uint64, CParam.mk "variables" (CType.ptr (CType.constOf (CType.struct "VariablesExport")))],
  CFun.mk "permChannelDelete" CType.uint [CParam.mk "serverID" CType.uint64, CParam.mk "client" (CType.ptr (CType.constOf (CType.struct "ClientMiniExport"))), CParam.mk "channelID" CType.uint64],
  CFun.mk "permChannelSubscribe" CType.uint [CParam.mk "serverID" CType.uint64, CParam.mk "client" (CType.ptr (CType.constOf (CType.struct "ClientMiniExport"))), CParam.mk "channelID" CType.uint64],
  CFun.mk "permFileTransferInitUpload" CType.uint [CParam.mk "serverID" CType.uint64, CParam.mk "client" (CType.ptr (CType.constOf (CType.struct "ClientMiniExport"))), CParam.mk "params" (CType.ptr (CType.constOf (CType.struct "ts3sc_ftinitupload")))],
  CFun.mk "permFileTransferInitDownload" CType.uint [CParam.mk "serverID" CType.uint64, CParam.mk "client" (CType.ptr (CType.constOf (CType.struct "ClientMiniExport"))), CParam.mk "params" (CType.ptr (CType.constOf (CType.struct "ts3sc_ftinitdownload")))],
  CFun.mk "permFileTransferGetFileInfo" CType.uint [CParam.mk "serverID" CType.uint64, CParam.mk "client" (CType.ptr (CType.constOf (CType.struct "ClientMiniExport"))), CParam.mk "params" (CType.ptr (CType.constOf (CType.struct "ts3sc_ftgetfileinfo")))],
  CFun.mk "permFileTransferGetFileList" CType.uint [CParam.mk "serverID" CType.uint64, CParam.mk "client" (CType.ptr (CType.constOf (CType.struct "ClientMiniExport"))), CParam.mk "params" (CType.ptr (CType.constOf (CType.struct "ts3sc_ftgetfilelist")))],
  CFun.mk "permFileTransferDeleteFile" CType.uint [CParam.mk "serverID" CType.uint64, CParam.mk "client" (CType.ptr (CType.constOf (CType.struct "ClientMiniExport"))), CParam.mk "params" (CType.ptr (CType.constOf (CType.struct "ts3sc_ftdeletefile")))],
  CFun.mk "permFileTransferCreateDirectory" CType.uint [CParam.mk "serverID" CType.uint64, CParam.mk "client" (CType.ptr (CType.constOf (CType.struct "ClientMiniExport"))), CParam.mk "params" (CType.ptr (CType.constOf (CType.struct "ts3sc_ftcreatedir")))],
  CFun.mk "permFileTransferRenameFile" CType.uint [CParam.mk "serverID" CType.uint64, CParam.mk "client" (CType.ptr (CType.constOf (CType.struct "ClientMiniExport"))), CParam.mk "params" (CType.ptr (CType.constOf (CType.struct "ts3sc_ftrenamefile")))],
  CFun.mk "onClientPasswordEncrypt" CType.void [CParam.mk "serverID" CType.uint64, CParam.mk "plaintext" (CType.ptr (CType.constOf CType.char)), CParam.mk "encryptedText" (CType.ptr CType.char), CParam.mk "encryptedTextByteSize" CType.int],
  CFun.mk "onTransformFilePath" CType.uint [CParam.mk "serverID" CType.uint64, CParam.mk "invokerClientID" CType.anyID, CParam.mk "original" (CType.ptr (CType.constOf (CType.struct "TransformFilePathExport"))), CParam.mk "result" (CType.ptr (CType.struct "TransformFilePathExportReturns"))],
  CFun.mk "onCustomServerPasswordCheck" CType.uint [CParam.mk "serverID" CType.uint64, CParam.mk "client" (CType.ptr (CType.constOf (CType.struct "ClientMiniExport"))), CParam.mk "password" (CType.ptr (CType.constOf CType.char))],
  CFun.mk "onCustomChannelPasswordCheck" CType.uint [CParam.mk "serverID" CType.uint64, CParam.mk "client" (CType.ptr (CType.constOf (CType.struct "ClientMiniExport"))), CParam.mk "channelID" CType.uint64, CParam.mk "password" (CType.ptr (CType.constOf CType.char))]]

def serverLibFunctions : List CFun :=
  serverLibFunctionsChunk0 ++ serverLibFunctionsChunk1

/-! ## Helpers over the transcribed API surface -/

/-- Is the character list `p` a prefix of `s`? -/
def charsStart : List Char → List Char → Bool
  | [], _ => true
  | _ :: _, [] => false
  | c :: cs, d :: ds => c == d && charsStart cs ds

/-- Does string `s` start with `p`? (used to select the `ts3client_*`,
`ts3server_*`, `ts3client_request*` and `perm*` name families). -/
def strStarts (p s : String) : Bool :=
  charsStart p.toList s.toList

/-- Does prototype `f` have a parameter named `p`? -/
def hasParam (f : CFun) (p : String) : Bool :=
  f.params.any fun q => q.name == p

/-- Does prototype `f` have a parameter named `p` of type `t`? -/
def hasParamTyped (f : CFun) (p : String) (t : CType) : Bool :=
  f.params.any fun q => q.name == p && q.type == t

/-- Is a prototype named `n` present in the list `fs`? -/
def hasFun (fs : List CFun) (n : String) : Bool :=
  fs.any fun f => f.name == n

/-! ## Error space

Modelled from the spec: the `Ts3ErrorType` enumeration is declared in
`public_definitions.h` / `public_errors.h`, which both headers include but
which are not part of the repository.  The spec states that all functions
return an unsigned integer error code from a single enumerated space and
that zero denotes success.  Only `ERROR_ok = 0` and the fact that the
failure codes are non-zero are relied upon below; the numeric values of the
failure codes are representative stand-ins. -/

/-- Modelled from the spec: the success code of the shared error space. -/
def ERROR_ok : Nat := 0

/-- Modelled from the spec: a generic non-zero failure code. -/
def ERROR_undefined : Nat := 1

/-- Modelled from the spec: the non-zero code with which a permission
callback denies the guarded action. -/
def ERROR_permissions : Nat := 2568

/-- Modelled from the spec: the non-zero code returned when an argument is
rejected (for example a speed limit below the minimum). -/
def ERROR_parameter_invalid : Nat := 1538

/-- A return value denotes success exactly when it is zero. -/
def isSuccess (c : Nat) : Bool :=
  c == ERROR_ok

/-! ## Memory contract model (claim C2)

Modelled from the spec: the allocator sits inside the precompiled library,
which is not in the repository.  The headers state that for every output
parameter of pointer-to-pointer type the library allocates the memory and
the caller releases it by passing the pointer to `ts3client_freeMemory` /
`ts3server_freeMemory`. -/

/-- Modelled from the spec: the library-side allocator state — the next
fresh address and the set of live library-owned blocks. -/
structure Heap where
  next : Nat
  live : List Nat
  deriving DecidableEq

/-- Every live block was handed out before `next`; fresh addresses are new. -/
def HeapWF (h : Heap) : Prop :=
  ∀ q ∈ h.live, q < h.next

/-- Modelled from the spec: a string-producing call (one with a `char**`-style
output parameter) allocates a fresh library-owned block, hands its address to
the caller and returns `ERROR_ok`. -/
def stringProducingCall (h : Heap) : Heap × Nat × Nat :=
  (⟨h.next + 1, h.next :: h.live⟩, h.next, ERROR_ok)

/-- Modelled from the spec: the free-memory call releases a live
library-allocated block and succeeds on it; passing any other pointer is
undefined behaviour, modelled as `none` (a potential crash). -/
def freeMemory (h : Heap) (p : Nat) : Option (Heap × Nat) :=
  if p ∈ h.live then some (⟨h.next, h.live.erase p⟩, ERROR_ok) else none

/-! ## Speed-limit setters (claims C4 and C9) -/

/-- Modelled from the spec: the minimum accepted file-transfer speed limit in
bytes per second (`newLimit ... Must be >= 5120` on all five setters). -/
def MINIMUM_SPEED_LIMIT : Nat := 5120

/-- Modelled from the spec: a speed-limit setter at any of the three tiers
stores `newLimit` when it is at least `MINIMUM_SPEED_LIMIT` and otherwise
fails with a non-zero error, leaving the configured limit unchanged. -/
def setSpeedLimit (current newLimit : Nat) : Nat × Nat :=
  if newLimit < MINIMUM_SPEED_LIMIT then (current, ERROR_parameter_invalid)
  else (newLimit, ERROR_ok)

/-- Modelled from the spec: the speed granted to a single file transfer — the
requested speed capped by the per-transfer, per-virtual-server and
instance-wide limits (`min(instance limit, virtual server limit, transfer
limit)` per the header documentation). -/
def effectiveTransferSpeed (instLimit vsLimit transferLimit desired : Nat) : Nat :=
  min desired (min transferLimit (min vsLimit instLimit))

/-- Modelled from the spec: division of the connection budget `cap` among the
per-transfer demands of the concurrent transfers — each transfer receives its
demand capped by what is left of the budget. -/
def allocateBandwidth : Nat → List Nat → List Nat
  | _, [] => []
  | cap, d :: ds => min d cap :: allocateBandwidth (cap - min d cap) ds

/-! ## Batched property setters and flush (claim C5)

Modelled from the spec: the property stores live inside the precompiled
library.  The headers document typed setters that stage changes and a flush
call that publishes them (`Call ts3server_flushChannelVariable after having
set all variables you need to change`). -/

/-- A property value as set through the typed setters (`AsInt`, `AsUInt64`,
`AsString`). -/
inductive VarValue where
  | asInt (i : Int)
  | asUInt64 (u : Nat)
  | asString (s : String)
  deriving DecidableEq

/-- Modelled from the spec: the property store of one entity — the published
values the rest of the system sees, and the pending batch staged by setter
calls (most recent first). -/
structure VarStore where
  published : List (Nat × VarValue)
  pending : List (Nat × VarValue)
  deriving DecidableEq

/-- First binding of key `k` in an association list. -/
def lookupVar : List (Nat × VarValue) → Nat → Option VarValue
  | [], _ => none
  | (k, v) :: rest, k' => if k' = k then some v else lookupVar rest k'

/-- Modelled from the spec: a typed setter call stages one change in the
pending batch; it does not touch the published values. -/
def setVar (st : VarStore) (k : Nat) (v : VarValue) : VarStore :=
  { st with pending := (k, v) :: st.pending }

/-- Overwrite-or-insert a binding in an association list. -/
def setAssoc : List (Nat × VarValue) → Nat → VarValue → List (Nat × VarValue)
  | [], k, v => [(k, v)]
  | (k', v') :: rest, k, v =>
    if k = k' then (k, v) :: rest else (k', v') :: setAssoc rest k v

/-- Apply a pending batch (most recent first) to published values: older
entries are applied first, so the most recent write to a key wins. -/
def applyPending : List (Nat × VarValue) → List (Nat × VarValue) → List (Nat × VarValue)
  | [], pub => pub
  | (k, v) :: rest, pub => setAssoc (applyPending rest pub) k v

/-- Modelled from the spec: the flush call publishes the whole pending batch
in one step and clears it. -/
def flushVars (st : VarStore) : VarStore :=
  ⟨applyPending st.pending st.published, []⟩

/-- The value of property `k` as seen by the rest of the system. -/
def visibleVar (st : VarStore) (k : Nat) : Option VarValue :=
  lookupVar st.published k

/-! ## Library lifecycle (claim C6)

Modelled from the spec: the state machine behind init/destroy is in the
precompiled library.  The headers state that init `is the first function you
need to call, before this all calls to the ... library will fail`, that the
callback table is supplied to init, and for the server that `This function
must not be called multiple times`. -/

/-- Modelled from the spec: the lifecycle state of one SDK library, holding
the callback table of type `C` supplied at initialization. -/
inductive LibState (C : Type) where
  | uninitialized
  | ready (callbacks : C)
  | destroyed
  deriving DecidableEq

/-- A call into the library, abstracted to the three cases the lifecycle
distinguishes: the init call (carrying the callback table), the destroy
call, and any other library call (numbered). -/
inductive LibCall (C : Type) where
  | initLib (callbacks : C)
  | destroyLib
  | otherCall (n : Nat)
  deriving DecidableEq

/-- Modelled from the spec: one call against the lifecycle state, returning
the next state and the error code.  Calls before init fail and change
nothing; init stores the callback table; a second init fails and leaves the
stored table unchanged; after destroy every call fails. -/
def libStep {C : Type} : LibState C → LibCall C → LibState C × Nat
  | .uninitialized, .initLib cbs => (.ready cbs, ERROR_ok)
  | .uninitialized, _ => (.uninitialized, ERROR_undefined)
  | .ready cbs, .initLib _ => (.ready cbs, ERROR_undefined)
  | .ready _, .destroyLib => (.destroyed, ERROR_ok)
  | .ready cbs, .otherCall _ => (.ready cbs, ERROR_ok)
  | .destroyed, _ => (.destroyed, ERROR_undefined)

/-! ## Permission callbacks (claim C7) -/

/-- Modelled from the spec: dispatch of a guarded server action through one
of the `perm*` callback slots.  The callback's unsigned return value decides
the action: `ERROR_ok` lets the action run, any other value leaves the state
untouched and is reported as the error. -/
def permGate {A S : Type} (cb : A → Nat) (a : A) (action : S → S) (s : S) : S × Nat :=
  if cb a = ERROR_ok then (action s, ERROR_ok) else (s, cb a)

/-! ## Callback discipline (claim C8)

Modelled from the spec: the dispatch loop is in the precompiled library.
The headers state for all three destroy calls that they `must not be called
from within a callback`. -/

/-- An event of an execution trace: the dispatch thread enters a user
callback, the callback returns, the application calls one of the three
destroy functions, or any other activity happens. -/
inductive ExecEvent where
  | cbEnter
  | cbExit
  | destroyCall
  | otherCall
  deriving DecidableEq

/-- Callback nesting depth after the first `k` events of trace `t`. -/
def cbDepth (t : List ExecEvent) (k : Nat) : Int :=
  (((t.take k).filter fun e => e == ExecEvent.cbEnter).length : Int)
    - ((t.take k).filter fun e => e == ExecEvent.cbExit).length

/-- Modelled from the spec: a valid execution is well nested (a callback
only returns after it was entered) and obeys the documented rule that the
destroy functions are only invoked outside of any callback. -/
def ValidTrace (t : List ExecEvent) : Prop :=
  (∀ k < t.length + 1, 0 ≤ cbDepth t k)
  ∧ ∀ k < t.length, t.get? k = some ExecEvent.destroyCall → cbDepth t k = 0

/-- Position `k` lies within the dynamic extent of the callback entered at
position `i`: the nesting depth stays above its value at `i` throughout
`(i, k]`, i.e. that callback has not yet returned. -/
def InsideCallback (t : List ExecEvent) (i k : Nat) : Prop :=
  t.get? i = some ExecEvent.cbEnter ∧ i < k
    ∧ ∀ m < k + 1, i < m → cbDepth t i < cbDepth t m

/-! ## Enumeration callbacks (claim C10) -/

/-- A callback fired while answering an enumeration request: one item
callback per element, or the finished callback. -/
inductive EnumEvent (α : Type) where
  | item (a : α)
  | finished
  deriving DecidableEq

/-- Modelled from the spec: the callback sequence the library fires to
answer an enumeration request (`onFileListEvent`/`onFileListFinishedEvent`
after `ts3client_requestFileList`, `onClientIDsEvent`/
`onClientIDsFinishedEvent` after `ts3client_requestClientIDs`): one item
callback per element, then the finished callback. -/
def enumCallbackSequence {α : Type} (items : List α) : List (EnumEvent α) :=
  items.map EnumEvent.item ++ [EnumEvent.finished]

/-- The prototype of `ts3client_requestSlotsFromProvisioningServer` as
declared in the client header: a member of the `ts3client_request*` family
with no `returnCode` parameter (it reports through a `uint64* requestHandle`
output instead). -/
def requestSlotsPrototype : CFun :=
  CFun.mk "ts3client_requestSlotsFromProvisioningServer" CType.uint
    [CParam.mk "ip" (CType.ptr (CType.constOf CType.char)),
     CParam.mk "port" CType.ushort,
     CParam.mk "serverPassword" (CType.ptr (CType.constOf CType.char)),
     CParam.mk "slots" CType.ushort,
     CParam.mk "identity" (CType.ptr (CType.constOf CType.char)),
     CParam.mk "region" (CType.ptr (CType.constOf CType.char)),
     CParam.mk "requestHandle" (CType.ptr CType.uint64)]

/-- The names of the five file-transfer speed-limit setters, one pair per
tier plus the per-transfer setter. -/
def speedLimitSetters : List String :=
  ["ts3client_setInstanceSpeedLimitUp",
   "ts3client_setInstanceSpeedLimitDown",
   "ts3client_setServerConnectionHandlerSpeedLimitUp",
   "ts3client_setServerConnectionHandlerSpeedLimitDown",
   "ts3client_setTransferSpeedLimit"]

/-- The batched-setter and flush entry points named by claim C5. -/
def batchedSetterCalls : List (List CFun × String) :=
  [(clientExports, "ts3client_setClientSelfVariableAsInt"),
   (clientExports, "ts3client_setClientSelfVariableAsString"),
   (clientExports, "ts3client_flushClientSelfUpdates"),
   (serverExports, "ts3server_setChannelVariableAsInt"),
   (serverExports, "ts3server_setChannelVariableAsUInt64"),
   (serverExports, "ts3server_setChannelVariableAsString"),
   (serverExports, "ts3server_flushChannelVariable"),
   (serverExports, "ts3server_setVirtualServerVariableAsInt"),
   (serverExports, "ts3server_setVirtualServerVariableAsUInt64"),
   (serverExports, "ts3server_setVirtualServerVariableAsString"),
   (serverExports, "ts3server_flushVirtualServerVariable")]

/-! ## Supporting lemmas -/

theorem lookupVar_setAssoc (l : List (Nat × VarValue)) (k k' : Nat) (v : VarValue) :
    lookupVar (setAssoc l k v) k' = if k' = k then some v else lookupVar l k' := by
  induction l with
  | nil => simp [setAssoc, lookupVar]
  | cons hd tl ih =>
    obtain ⟨k0, v0⟩ := hd
    by_cases hk : k = k0
    · subst hk
      simp only [setAssoc, if_pos rfl, lookupVar]
      by_cases hk' : k' = k <;> simp [hk']
    · simp only [setAssoc, if_neg hk, lookupVar, ih]
      by_cases hk' : k' = k0
      · subst hk'
        simp [Ne.symm hk, lookupVar]
      · simp [hk', lookupVar]

theorem lookupVar_applyPending (pend pub : List (Nat × VarValue)) (k : Nat) :
    lookupVar (applyPending pend pub) k =
      match lookupVar pend k with
      | some v => some v
      | none => lookupVar pub k := by
  induction pend with
  | nil => simp [applyPending, lookupVar]
  | cons hd tl ih =>
    obtain ⟨k0, v0⟩ := hd
    simp only [applyPending, lookupVar_setAssoc, lookupVar, ih]
    by_cases hk : k = k0
    · simp [hk]
    · simp [hk]

theorem allocateBandwidth_sum_le (cap : Nat) (ds : List Nat) :
    (allocateBandwidth cap ds).sum ≤ cap := by
  induction ds generalizing cap with
  | nil => simp [allocateBandwidth]
  | cons d ds ih =>
    have h1 : min d cap ≤ cap := Nat.min_le_right d cap
    have h2 := ih (cap - min d cap)
    simp only [allocateBandwidth, List.sum_cons]
    omega

theorem allocateBandwidth_bounds (cap bound : Nat) (hc : cap ≤ bound)
    (transfers : List (Nat × Nat)) :
    List.Forall₂ (fun s p => s ≤ min p.1 bound)
      (allocateBandwidth cap (transfers.map fun p => min p.2 p.1)) transfers := by
  induction transfers generalizing cap with
  | nil => simp [allocateBandwidth]
  | cons p ps ih =>
    simp only [List.map_cons, allocateBandwidth]
    refine List.Forall₂.cons ?_ (ih _ (Nat.le_trans (Nat.sub_le _ _) hc))
    have h1 : min (min p.2 p.1) cap ≤ p.1 :=
      Nat.le_trans (Nat.min_le_left _ _) (Nat.min_le_right _ _)
    have h2 : min (min p.2 p.1) cap ≤ bound :=
      Nat.le_trans (Nat.min_le_right _ _) hc
    exact Nat.le_min.mpr ⟨h1, h2⟩

theorem enumCallbackSequence_cons {α : Type} (b : α) (items : List α) :
    enumCallbackSequence (b :: items) =
      EnumEvent.item b :: enumCallbackSequence items := rfl

theorem enumCallbackSequence_count_item {α : Type} [DecidableEq α]
    (items : List α) (a : α) :
    (enumCallbackSequence items).count (EnumEvent.item a) = items.count a := by
  induction items with
  | nil => simp [enumCallbackSequence, List.count_cons, List.count_nil]
  | cons b items ih =>
    simp only [enumCallbackSequence_cons, List.count_cons, ih, List.count_cons]
    by_cases hb : b = a
    · simp [hb]
    · simp [hb, EnumEvent.item.injEq]

theorem enumCallbackSequence_count_finished {α : Type} [DecidableEq α]
    (items : List α) :
    (enumCallbackSequence items).count (EnumEvent.finished : EnumEvent α) = 1 := by
  induction items with
  | nil => simp [enumCallbackSequence]
  | cons b items ih =>
    simp only [enumCallbackSequence_cons, List.count_cons, ih]
    simp

theorem enumCallbackSequence_get_length {α : Type} (items : List α) :
    (enumCallbackSequence items).get? items.length =
      some (EnumEvent.finished : EnumEvent α) := by
  induction items with
  | nil => rfl
  | cons b items ih =>
    simpa [enumCallbackSequence_cons] using ih

theorem enumCallbackSequence_item_lt {α : Type} (items : List α) :
    ∀ k : Nat, ∀ e : α,
      (enumCallbackSequence items).get? k = some (EnumEvent.item e) →
        k < items.length := by
  induction items with
  | nil =>
    intro k e hk
    cases k with
    | zero => simp [enumCallbackSequence] at hk
    | succ k => simp [enumCallbackSequence, List.get?] at hk
  | cons b items ih =>
    intro k e hk
    cases k with
    | zero => simp [List.length_cons]
    | succ k =>
      have := ih k e (by simpa [enumCallbackSequence_cons] using hk)
      simpa [List.length_cons] using Nat.succ_lt_succ this

/-! ## The claims -/

/-- C1: every exported function of the client library is a `ts3client_*`
function returning `unsigned int`, every exported function of the server
library is a `ts3server_*` function returning `unsigned int`, and the
returned codes live in the single modelled error space in which zero
(`ERROR_ok`) denotes success and any non-zero value denotes the failure
reason. -/
theorem C1_exports_return_error_codes :
    (clientExports.all fun f => f.ret == CType.uint && strStarts "ts3client_" f.name) = true
    ∧ (serverExports.all fun f => f.ret == CType.uint && strStarts "ts3server_" f.name) = true
    ∧ ERROR_ok = 0
    ∧ ∀ c : Nat, isSuccess c = true ↔ c = ERROR_ok := by
  refine ⟨by decide, by decide, rfl, fun c => ?_⟩
  simp [isSuccess, ERROR_ok]

/-- C2: both libraries export a `freeMemory` call taking a `void*`; in the
allocator model, a string-producing call succeeds, hands the caller a fresh
library-allocated pointer that is live afterwards, and passing that pointer
to the free-memory call does not crash — it releases the block and returns
`ERROR_ok`. -/
theorem C2_free_memory_contract (h : Heap) (hwf : HeapWF h) :
    (stringProducingCall h).2.2 = ERROR_ok
    ∧ (stringProducingCall h).2.1 ∉ h.live
    ∧ (stringProducingCall h).2.1 ∈ (stringProducingCall h).1.live
    ∧ freeMemory (stringProducingCall h).1 (stringProducingCall h).2.1
        = some (⟨(stringProducingCall h).1.next, h.live⟩, ERROR_ok)
    ∧ (clientExports.contains
        (CFun.mk "ts3client_freeMemory" CType.uint
          [CParam.mk "pointer" (CType.ptr CType.void)])) = true
    ∧ (serverExports.contains
        (CFun.mk "ts3server_freeMemory" CType.uint
          [CParam.mk "pointer" (CType.ptr CType.void)])) = true := by
  refine ⟨rfl, ?_, ?_, ?_, by decide, by decide⟩
  · intro hmem
    exact absurd (hwf h.next hmem) (Nat.lt_irrefl h.next)
  · simp [stringProducingCall]
  · simp [stringProducingCall, freeMemory]

/-- Witness for C2 at the concrete heap with two live blocks `0` and `1`
and next fresh address `2`. -/
theorem C2_free_memory_contract_witness :
    (stringProducingCall ⟨2, [0, 1]⟩).2.2 = ERROR_ok
    ∧ (stringProducingCall ⟨2, [0, 1]⟩).2.1 ∉ [0, 1]
    ∧ (stringProducingCall ⟨2, [0, 1]⟩).2.1 ∈ (stringProducingCall ⟨2, [0, 1]⟩).1.live
    ∧ freeMemory (stringProducingCall ⟨2, [0, 1]⟩).1 (stringProducingCall ⟨2, [0, 1]⟩).2.1
        = some (⟨(stringProducingCall ⟨2, [0, 1]⟩).1.next, [0, 1]⟩, ERROR_ok)
    ∧ (clientExports.contains
        (CFun.mk "ts3client_freeMemory" CType.uint
          [CParam.mk "pointer" (CType.ptr CType.void)])) = true
    ∧ (serverExports.contains
        (CFun.mk "ts3server_freeMemory" CType.uint
          [CParam.mk "pointer" (CType.ptr CType.void)])) = true :=
  C2_free_memory_contract ⟨2, [0, 1]⟩ (by unfold HeapWF; decide)


/-- C3 as stated is false: not every `ts3client_request*` function takes a
`returnCode` parameter — `ts3client_requestSlotsFromProvisioningServer` is
in the family and has none. -/
theorem C3_counterexample_requestSlots :
    ¬ ∀ f ∈ clientExports,
        strStarts "ts3client_request" f.name = true →
          hasParam f "returnCode" = true := by
  intro hall
  have hmem : requestSlotsPrototype ∈ clientExports := by decide
  have := hall requestSlotsPrototype hmem (by decide)
  exact absurd this (by decide)

/-- C3 (amended): every `ts3client_request*` function other than
`ts3client_requestSlotsFromProvisioningServer` takes a caller-supplied
`returnCode` string; completion is reported through the `onServerErrorEvent`
callback slot, which carries a `returnCode` parameter; the corresponding
server-SDK actions return the error code directly and no `ts3server_*`
function has a `returnCode` parameter (in particular `ts3server_clientMove`,
whose full prototype is checked). -/
theorem C3_request_correlation_amended :
    (clientExports.all fun f =>
        !(strStarts "ts3client_request" f.name)
        || f.name == "ts3client_requestSlotsFromProvisioningServer"
        || hasParam f "returnCode") = true
    ∧ (serverExports.all fun f => !(hasParam f "returnCode")) = true
    ∧ (clientUIFunctions.any fun f =>
        f.name == "onServerErrorEvent"
        && hasParam f "returnCode" && f.ret == CType.void) = true
    ∧ (serverExports.contains
        (CFun.mk "ts3server_clientMove" CType.uint
          [CParam.mk "serverID" CType.uint64,
           CParam.mk "newChannelID" CType.uint64,
           CParam.mk "clientIDArray" (CType.ptr (CType.constOf CType.anyID))])) = true := by
  refine ⟨by decide, by decide, by decide, by decide⟩

/-- C4: all five speed-limit setters are exported and take a `uint64`
parameter named `newLimit`; in the modelled setter, any `newLimit` below
5120 bytes per second makes the call fail (non-zero error) and leaves the
configured limit unchanged. -/
theorem C4_minimum_speed_limit (current newLimit : Nat) (hlt : newLimit < 5120) :
    (setSpeedLimit current newLimit).2 ≠ ERROR_ok
    ∧ (setSpeedLimit current newLimit).1 = current
    ∧ (speedLimitSetters.all fun n =>
        clientExports.any fun f =>
          f.name == n && hasParamTyped f "newLimit" CType.uint64) = true := by
  have h5 : newLimit < MINIMUM_SPEED_LIMIT := hlt
  refine ⟨?_, ?_, by decide⟩
  · simp [setSpeedLimit, if_pos h5, ERROR_parameter_invalid, ERROR_ok]
  · simp [setSpeedLimit, if_pos h5]

/-- Witness for C4 at the configured limit 9000 and the rejected request
100 < 5120. -/
theorem C4_minimum_speed_limit_witness :
    (setSpeedLimit 9000 100).2 ≠ ERROR_ok
    ∧ (setSpeedLimit 9000 100).1 = 9000
    ∧ (speedLimitSetters.all fun n =>
        clientExports.any fun f =>
          f.name == n && hasParamTyped f "newLimit" CType.uint64) = true :=
  C4_minimum_speed_limit 9000 100 (by decide)

/-- C5: all batched setter and flush entry points named by the claim are
exported; in the modelled property store a setter call changes nothing the
rest of the system sees, and the single flush step publishes the whole
pending batch — afterwards every key shows its most recent pending value,
keys without pending writes are unchanged, and the batch is cleared. -/
theorem C5_flush_publishes_batch (st : VarStore) (k k' : Nat) (v : VarValue) :
    visibleVar (setVar st k v) k' = visibleVar st k'
    ∧ (flushVars st).pending = []
    ∧ visibleVar (flushVars st) k' =
        (match lookupVar st.pending k' with
         | some w => some w
         | none => visibleVar st k')
    ∧ (batchedSetterCalls.all fun p => hasFun p.1 p.2) = true := by
  refine ⟨rfl, rfl, ?_, by decide⟩
  simp only [visibleVar, flushVars]
  exact lookupVar_applyPending st.pending st.published k'


/-- C6: both init calls are exported taking a pointer to the callback table
(`const struct ClientUIFunctions*` / `const struct ServerLibFunctions*`), and
both destroy calls are exported; in the modelled lifecycle, the destroy call
and every other call made before init fail without changing the state, init
stores the callback table, a second init call fails and leaves the stored
table unchanged, and no call ever replaces the table supplied at init — from
the ready state every call leads back to the same table or to the destroyed
state. -/
theorem C6_init_lifecycle {C : Type} (cbs cbs2 : C) (n : Nat) :
    libStep (LibState.uninitialized : LibState C) LibCall.destroyLib
      = (LibState.uninitialized, ERROR_undefined)
    ∧ libStep (LibState.uninitialized : LibState C) (LibCall.otherCall n)
      = (LibState.uninitialized, ERROR_undefined)
    ∧ ERROR_undefined ≠ ERROR_ok
    ∧ libStep LibState.uninitialized (LibCall.initLib cbs)
      = (LibState.ready cbs, ERROR_ok)
    ∧ libStep (LibState.ready cbs) (LibCall.initLib cbs2)
      = (LibState.ready cbs, ERROR_undefined)
    ∧ (∀ call : LibCall C,
        (libStep (LibState.ready cbs) call).1 = LibState.ready cbs
        ∨ (libStep (LibState.ready cbs) call).1 = LibState.destroyed)
    ∧ (clientExports.any fun f =>
        f.name == "ts3client_initClientLib"
        && hasParamTyped f "functionPointers"
            (CType.ptr (CType.constOf (CType.struct "ClientUIFunctions")))) = true
    ∧ (serverExports.any fun f =>
        f.name == "ts3server_initServerLib"
        && hasParamTyped f "functionPointers"
            (CType.ptr (CType.constOf (CType.struct "ServerLibFunctions")))) = true
    ∧ hasFun clientExports "ts3client_destroyClientLib" = true
    ∧ hasFun serverExports "ts3server_destroyServerLib" = true := by
  refine ⟨rfl, rfl, by decide, rfl, rfl, ?_, by decide, by decide, by decide, by decide⟩
  intro call
  cases call with
  | initLib c => exact Or.inl rfl
  | destroyLib => exact Or.inr rfl
  | otherCall m => exact Or.inl rfl

/-- C7: every `perm*` slot of the `ServerLibFunctions` table returns
`unsigned int`, and the three slots named by the claim are present; in the
modelled dispatch, a callback returning `ERROR_ok` lets the guarded action
run, and a callback returning `ERROR_permissions` (a non-zero code) leaves
the state untouched and reports that code. -/
theorem C7_perm_callbacks_gate {A S : Type} (cb : A → Nat) (a : A)
    (action : S → S) (s : S) :
    (cb a = ERROR_ok → permGate cb a action s = (action s, ERROR_ok))
    ∧ (cb a = ERROR_permissions →
        permGate cb a action s = (s, ERROR_permissions)
        ∧ ERROR_permissions ≠ ERROR_ok)
    ∧ (serverLibFunctions.all fun f =>
        !(strStarts "perm" f.name) || f.ret == CType.uint) = true
    ∧ (["permClientCanConnect", "permClientMove", "permChannelSubscribe"].all
        fun nm => serverLibFunctions.any fun f =>
          f.name == nm && f.ret == CType.uint) = true := by
  refine ⟨?_, ?_, by decide, by decide⟩
  · intro hok
    simp [permGate, hok]
  · intro hperm
    refine ⟨?_, by decide⟩
    have hne : cb a ≠ ERROR_ok := by
      rw [hperm]
      decide
    rw [permGate, hperm, if_neg (by decide : ERROR_permissions ≠ ERROR_ok)]

/-- Witness for C7: with an allowing callback the action (adding one)
runs and `ERROR_ok` is reported. -/
theorem C7_perm_callbacks_gate_witness :
    permGate (fun _ : Nat => ERROR_ok) 0 (fun s : Nat => s + 1) 5 = (6, ERROR_ok) :=
  ((C7_perm_callbacks_gate (fun _ : Nat => ERROR_ok) 0 (fun s : Nat => s + 1) 5).1 rfl)

/-- C8: the three destroy operations are exported, and in any valid
execution trace — well nested, with destroy calls only made at callback
nesting depth zero as the headers demand — no position inside the dynamic
extent of a callback is a destroy call.  (The headers' further demand that
callbacks exit quickly is a real-time requirement outside this model.) -/
theorem C8_no_destroy_inside_callback (t : List ExecEvent) (i k : Nat)
    (hvalid : ValidTrace t) (hin : InsideCallback t i k) :
    t.get? k ≠ some ExecEvent.destroyCall
    ∧ hasFun clientExports "ts3client_destroyClientLib" = true
    ∧ hasFun clientExports "ts3client_destroyServerConnectionHandler" = true
    ∧ hasFun serverExports "ts3server_destroyServerLib" = true := by
  refine ⟨?_, by decide, by decide, by decide⟩
  intro hk
  obtain ⟨henter, hik, hmono⟩ := hin
  have hklen : k < t.length := List.get?_eq_some.mp hk |>.1
  have hilen : i < t.length + 1 := by omega
  have hdepth0 : cbDepth t k = 0 := hvalid.2 k hklen hk
  have hlt : cbDepth t i < cbDepth t k := hmono k (by omega) hik
  have hge : 0 ≤ cbDepth t i := hvalid.1 i hilen
  omega

/-- Witness for C8 on the concrete valid trace
`[cbEnter, otherCall, cbExit, destroyCall]`: position 1 is inside the
extent of the callback entered at position 0 and is not a destroy call. -/
theorem C8_no_destroy_inside_callback_witness :
    [ExecEvent.cbEnter, ExecEvent.otherCall, ExecEvent.cbExit,
      ExecEvent.destroyCall].get? 1 ≠ some ExecEvent.destroyCall
    ∧ hasFun clientExports "ts3client_destroyClientLib" = true
    ∧ hasFun clientExports "ts3client_destroyServerConnectionHandler" = true
    ∧ hasFun serverExports "ts3server_destroyServerLib" = true :=
  C8_no_destroy_inside_callback
    [ExecEvent.cbEnter, ExecEvent.otherCall, ExecEvent.cbExit, ExecEvent.destroyCall]
    0 1
    (by unfold ValidTrace; decide)
    (by unfold InsideCallback; decide)


/-- C9: in the modelled throttler, a single transfer's effective speed never
exceeds `min(instance limit, virtual server limit, transfer limit)`; and for
any set of concurrent transfers (each a pair of transfer limit and requested
speed), the granted speeds stay below `min(instance limit, virtual server
limit, transfer limit)` transfer by transfer, while their combined sum never
exceeds `min(instance limit, virtual server limit)`. -/
theorem C9_speed_limits_respected (instLimit vsLimit : Nat)
    (transfers : List (Nat × Nat)) :
    (∀ transferLimit desired : Nat,
      effectiveTransferSpeed instLimit vsLimit transferLimit desired
        ≤ min transferLimit (min vsLimit instLimit))
    ∧ List.Forall₂ (fun s p => s ≤ min p.1 (min vsLimit instLimit))
        (allocateBandwidth (min vsLimit instLimit)
          (transfers.map fun p => min p.2 p.1)) transfers
    ∧ (allocateBandwidth (min vsLimit instLimit)
        (transfers.map fun p => min p.2 p.1)).sum ≤ min vsLimit instLimit := by
  refine ⟨?_, ?_, allocateBandwidth_sum_le _ _⟩
  · intro transferLimit desired
    exact Nat.min_le_right desired (min transferLimit (min vsLimit instLimit))
  · exact allocateBandwidth_bounds _ _ (Nat.le_refl _) transfers

/-- C10: the enumeration callback slots named by the claim exist in the
client callback table; in the modelled answer sequence of an enumeration
request, the item callback fires exactly once per element (counts are
preserved), the finished callback fires exactly once, it sits after the last
item — at the position equal to the number of items, with every item event
strictly before it. -/
theorem C10_items_then_finished {α : Type} [DecidableEq α]
    (items : List α) (a : α) :
    (enumCallbackSequence items).count (EnumEvent.item a) = items.count a
    ∧ (enumCallbackSequence items).count (EnumEvent.finished : EnumEvent α) = 1
    ∧ (enumCallbackSequence items).get? items.length
        = some (EnumEvent.finished : EnumEvent α)
    ∧ (∀ k : Nat, ∀ e : α,
        (enumCallbackSequence items).get? k = some (EnumEvent.item e) →
          k < items.length)
    ∧ ((["onFileListEvent", "onFileListFinishedEvent",
         "onClientIDsEvent", "onClientIDsFinishedEvent"].all fun nm =>
          clientUIFunctions.any fun f => f.name == nm) = true) := by
  exact ⟨enumCallbackSequence_count_item items a,
    enumCallbackSequence_count_finished items,
    enumCallbackSequence_get_length items,
    enumCallbackSequence_item_lt items,
    by decide⟩

/-- Witness for C10 on the two-element enumeration `[10, 20]`: the counts,
the position of the finished event, and the bound for the item event at
position 0 are all checked concretely. -/
theorem C10_items_then_finished_witness :
    (enumCallbackSequence [10, 20]).count (EnumEvent.item 10) = [10, 20].count 10
    ∧ (enumCallbackSequence [10, 20]).count (EnumEvent.finished : EnumEvent Nat) = 1
    ∧ (enumCallbackSequence [10, 20]).get? 2 = some (EnumEvent.finished : EnumEvent Nat)
    ∧ 0 < [10, 20].length :=
  ⟨(C10_items_then_finished [10, 20] 10).1,
   (C10_items_then_finished [10, 20] 10).2.1,
   (C10_items_then_finished [10, 20] 10).2.2.1,
   (C10_items_then_finished [10, 20] 10).2.2.2.1 0 10 rfl⟩

end TS3
